import Mathlib

/-!
# TChat overlay bridge: `imgui_bridge.cpp` and `jungle_helper_ui.cpp`

A shallow embedding of the JNI bridge of the jungle-helper overlay and of the
panel it draws, with the properties of its lifecycle, signal flags, geometry
query, touch dispatch, font fallback chain and resize logging.

Modelling conventions.

* The file-level `static` variables of the two translation units are the fields
  of one record, `Bridge`; every JNI entry point is a function from `Bridge`
  (and its arguments) to the new `Bridge` (and its return value).
* `jint` / `int` values are `Int`; the casts of `nativeGetMainWindowSize` are
  written out with explicit `% 2^32` and `% 2^64`.
* `float` / `jfloat` values are only stored and passed on by the bridge; they
  are carried as their IEEE-754 bit pattern (`F32`), never computed with.
* `std::chrono::steady_clock::now()` is an argument of each entry point that
  reads the clock, in nanosecond ticks.
* The UI library is outside the repository. What the bridge hands to it is
  recorded (`io.InputEvents`, `io.DisplaySize`, `io.FontDefault`); what the
  library hands back during one frame is the argument `Frame`; whether a font
  source loads is the argument `FontEnv`.
* `LOGI(...)` appends to `log`.
-/

namespace TChat

/-- A `float` carried as data: its IEEE-754 single-precision bit pattern. -/
abbrev F32 := Nat

/-- The literal `1.0f`. -/
def f32_one : F32 := 1065353216

/-- The literal `0.95f`. -/
def f32_0_95 : F32 := 1064514355

/-- One call on the UI library's input queue. -/
inductive InputEvent where
  /-- `io.AddMousePosEvent(x, y)` -/
  | mousePos (x y : F32)
  /-- `io.AddMouseButtonEvent(button, down)` -/
  | mouseButton (button : Int) (down : Bool)
  deriving DecidableEq, Repr

/-- One font source of `nativeInit`, in the words of the code. -/
inductive FontSource where
  /-- `AddFontFromMemoryTTF(OPPOSans_H, ...)` -/
  | embedded
  /-- an entry of `assetCandidates`, opened through the asset manager -/
  | asset (path : String)
  /-- an entry of `candidates`, `AddFontFromFileTTF(path, ...)` -/
  | system (path : String)
  /-- `AddFontDefault(&fontConfig)` -/
  | defaultFont
  deriving DecidableEq, Repr

/-- One `LOGI` line. -/
inductive LogMsg where
  | alreadyInitialized
  | initializing (width height : Int) (density : F32)
  | loadedEmbedded
  | loadedAsset (path : String)
  | loadedSystem (path : String)
  | fallingBackToDefault
  | initializedOk
  | shuttingDown
  | resized (width height : Int)
  deriving DecidableEq, Repr

/-- How far the body of the asset loop gets for one asset path. -/
inductive AssetOutcome where
  /-- `AAssetManager_open` returned null -/
  | openFailed
  /-- `!src || size == 0` -/
  | noData
  /-- `std::malloc(size)` returned null -/
  | allocFailed
  /-- `AddFontFromMemoryTTF` returned null; the copy is freed -/
  | decodeFailed
  /-- `AddFontFromMemoryTTF` returned a font -/
  | loaded
  deriving DecidableEq, Repr

/-- The environment of the font fallback chain: the result of each load attempt. -/
structure FontEnv where
  /-- `AddFontFromMemoryTTF(OPPOSans_H, ...)` returns a font -/
  embeddedLoads : Bool
  /-- the outcome of the loop body for an asset path -/
  assetOutcome : String → AssetOutcome
  /-- `AddFontFromFileTTF(path, ...)` returns a font -/
  systemLoads : String → Bool
  /-- `AddFontDefault(&fontConfig)` returns a font -/
  defaultLoads : Bool

/-- What the UI library reports back during one `nativeRender`. -/
structure Frame where
  /-- `steady_clock::now()` read by `nativeRender` -/
  now : Int
  /-- `io.WantCaptureMouse` as `ImGui::NewFrame()` leaves it -/
  wantCaptureMouse : Bool
  /-- `ImGui::Begin` wrote `false` through `p_open` (the close button) -/
  closeClicked : Bool
  /-- return value of `ImGui::Begin`: `false` when the window is collapsed -/
  beginOpen : Bool
  /-- the value `ImGui::SliderFloat` wrote to `g_WindowAlpha`, if it wrote -/
  sliderAlpha : Option F32
  /-- `ImGui::Button(u8"申请权限")` -/
  permissionClicked : Bool
  /-- `ImGui::Button(u8"OCR框选")` -/
  ocrClicked : Bool
  /-- `(int)(ImGui::GetWindowSize().x + 0.5f)` -/
  windowWidthPx : Int
  /-- `(int)(ImGui::GetWindowSize().y + 0.5f)` -/
  windowHeightPx : Int
  deriving DecidableEq, Repr

/-- The static variables of `jungle_helper_ui.cpp`. -/
structure UiState where
  g_ShowMainWindow : Bool
  g_WindowAlpha : F32
  g_MainWindowWidthPx : Int
  g_MainWindowHeightPx : Int
  g_OcrRequested : Bool
  g_PermissionRequested : Bool
  deriving DecidableEq, Repr

/-- The part of the UI context's `ImGuiIO` the bridge writes or reads. -/
structure IoState where
  /-- `io.DisplaySize`, as the integers it was converted from -/
  DisplaySize : Int × Int
  WantCaptureMouse : Bool
  FontDefault : Option FontSource
  /-- the `Add...Event` calls made on this context, oldest first -/
  InputEvents : List InputEvent
  deriving DecidableEq, Repr

/-- The `ImGuiIO` of a context `ImGui::CreateContext()` has just made; it also
stands for "no context" before `nativeInit` and after `nativeShutdown`, when
no entry point reads it. -/
def freshIo : IoState where
  DisplaySize := (0, 0)
  WantCaptureMouse := false
  FontDefault := none
  InputEvents := []

/-- The static variables of `imgui_bridge.cpp`, those of `jungle_helper_ui.cpp`
(`ui`), the UI context (`io`), and the two traces. -/
structure Bridge where
  g_Initialized : Bool
  g_DisplayWidth : Int
  g_DisplayHeight : Int
  g_DisplayDensity : F32
  g_LastFrameTime : Int
  g_LastResizeLogTime : Int
  /-- `g_AssetManager != nullptr` -/
  g_AssetManager : Bool
  ui : UiState
  io : IoState
  /-- the font sources `nativeInit` tried, oldest first -/
  fontAttempts : List FontSource
  log : List LogMsg
  deriving DecidableEq, Repr

/-- The static initialisers of `jungle_helper_ui.cpp`. -/
def initialUi : UiState where
  g_ShowMainWindow := true
  g_WindowAlpha := f32_0_95
  g_MainWindowWidthPx := 0
  g_MainWindowHeightPx := 0
  g_OcrRequested := false
  g_PermissionRequested := false

/-- The static initialisers of both translation units; no UI context exists. -/
def initialState : Bridge where
  g_Initialized := false
  g_DisplayWidth := 0
  g_DisplayHeight := 0
  g_DisplayDensity := f32_one
  g_LastFrameTime := 0
  g_LastResizeLogTime := 0
  g_AssetManager := false
  ui := initialUi
  io := freshIo
  fontAttempts := []
  log := []

/-! ## jungle_helper_ui.cpp -/

/-- `JungleHelper_Init` -/
def JungleHelper_Init (u : UiState) : UiState :=
  { u with g_ShowMainWindow := true, g_MainWindowWidthPx := 0, g_MainWindowHeightPx := 0 }

/-- `JungleHelper_Shutdown`: the body is empty. -/
def JungleHelper_Shutdown (u : UiState) : UiState := u

/-- `JungleHelper_SetVisible` -/
def JungleHelper_SetVisible (u : UiState) (visible : Bool) : UiState :=
  { u with g_ShowMainWindow := visible }

/-- `JungleHelper_IsVisible` -/
def JungleHelper_IsVisible (u : UiState) : Bool := u.g_ShowMainWindow

/-- `JungleHelper_Render`. `ImGui::Begin` may clear `g_ShowMainWindow` through
`p_open`; the slider and the two buttons are reached only when `Begin` returned
true; the window size is stored after the `if`, before `ImGui::End()`. -/
def JungleHelper_Render (u : UiState) (f : Frame) : UiState :=
  if !u.g_ShowMainWindow then u
  else
    let u1 := if f.closeClicked then { u with g_ShowMainWindow := false } else u
    let u2 :=
      if f.beginOpen then
        let a := match f.sliderAlpha with
          | some v => { u1 with g_WindowAlpha := v }
          | none => u1
        let b := if f.permissionClicked then { a with g_PermissionRequested := true } else a
        if f.ocrClicked then { b with g_OcrRequested := true } else b
      else u1
    { u2 with g_MainWindowWidthPx := f.windowWidthPx, g_MainWindowHeightPx := f.windowHeightPx }

/-- `JungleHelper_GetMainWindowSize`, with both out-pointers non-null as at its
only call site. -/
def JungleHelper_GetMainWindowSize (u : UiState) : Int × Int :=
  (u.g_MainWindowWidthPx, u.g_MainWindowHeightPx)

/-- `JungleHelper_ConsumeOcrRequest`: `g_OcrRequested.exchange(false)`. -/
def JungleHelper_ConsumeOcrRequest (u : UiState) : Bool × UiState :=
  (u.g_OcrRequested, { u with g_OcrRequested := false })

/-- `JungleHelper_ConsumePermissionRequest`: `g_PermissionRequested.exchange(false)`. -/
def JungleHelper_ConsumePermissionRequest (u : UiState) : Bool × UiState :=
  (u.g_PermissionRequested, { u with g_PermissionRequested := false })

/-! ## imgui_bridge.cpp: the font fallback chain of `nativeInit` -/

/-- The array `assetCandidates`. -/
def assetCandidates : List String :=
  ["fonts/cjk.ttf", "fonts/chinese.ttf", "fonts/NotoSansSC-Regular.ttf",
   "fonts/NotoSansCJK-Regular.ttc"]

/-- The array `candidates` (system font paths). -/
def candidates : List String :=
  ["/system/fonts/DroidSansFallback.ttf", "/system/fonts/NotoSansCJK-Regular.ttc",
   "/system/fonts/NotoSansCJK.ttc"]

/-- The local state of the font chain: `mainFont`, the sources tried so far, and
the lines logged so far. -/
structure FontChain where
  mainFont : Option FontSource
  attempts : List FontSource
  log : List LogMsg
  deriving DecidableEq, Repr

/-- The first block: the embedded blob `OPPOSans_H`. -/
def loadEmbedded (env : FontEnv) : FontChain :=
  if env.embeddedLoads then
    { mainFont := some FontSource.embedded, attempts := [FontSource.embedded],
      log := [LogMsg.loadedEmbedded] }
  else
    { mainFont := none, attempts := [FontSource.embedded], log := [] }

/-- The loop `for (const char* assetPath : assetCandidates)`, entered with
`mainFont == nullptr`. Every outcome but `loaded` reaches the next iteration
(`continue`, or falling off the end of the body after `std::free`); `loaded`
leaves the loop by `break`. -/
def loadAssets (env : FontEnv) (c : FontChain) : List String → FontChain
  | [] => c
  | assetPath :: rest =>
    let c1 := { c with attempts := c.attempts ++ [FontSource.asset assetPath] }
    match env.assetOutcome assetPath with
    | AssetOutcome.openFailed => loadAssets env c1 rest
    | AssetOutcome.noData => loadAssets env c1 rest
    | AssetOutcome.allocFailed => loadAssets env c1 rest
    | AssetOutcome.decodeFailed => loadAssets env c1 rest
    | AssetOutcome.loaded =>
      { c1 with mainFont := some (FontSource.asset assetPath),
                log := c1.log ++ [LogMsg.loadedAsset assetPath] }

/-- The loop `for (const auto& candidate : candidates)`: it breaks at once when
`mainFont` is set, and after the first path that loads. -/
def loadSystem (env : FontEnv) (c : FontChain) : List String → FontChain
  | [] => c
  | path :: rest =>
    if c.mainFont.isSome then c
    else
      let c1 := { c with attempts := c.attempts ++ [FontSource.system path] }
      if env.systemLoads path then
        { c1 with mainFont := some (FontSource.system path),
                  log := c1.log ++ [LogMsg.loadedSystem path] }
      else loadSystem env c1 rest

/-- The last block: `if (!mainFont) { mainFont = AddFontDefault(...); LOGI(...); }`. -/
def loadDefault (env : FontEnv) (c : FontChain) : FontChain :=
  if c.mainFont.isSome then c
  else
    { mainFont := if env.defaultLoads then some FontSource.defaultFont else none,
      attempts := c.attempts ++ [FontSource.defaultFont],
      log := c.log ++ [LogMsg.fallingBackToDefault] }

/-- Lines 78-170 of `nativeInit`: the whole chain. The asset loop runs only
under `!mainFont && g_AssetManager`. -/
def resolveFont (env : FontEnv) (assetManager : Bool) : FontChain :=
  let c0 := loadEmbedded env
  let c1 := if !c0.mainFont.isSome && assetManager then loadAssets env c0 assetCandidates else c0
  let c2 := loadSystem env c1 candidates
  loadDefault env c2

/-! ## imgui_bridge.cpp: the JNI entry points -/

/-- `nativeSetAssetManager`; the argument is whether the pointer it stores
(`AAssetManager_fromJava(...)`, or `nullptr` for a null `asset_manager`) is
non-null. -/
def Java_com_tchat_wanxiaot_junglehelper_ImGuiBridge_nativeSetAssetManager
    (s : Bridge) (asset_manager : Bool) : Bridge :=
  { s with g_AssetManager := asset_manager }

/-- `nativeInit`. `ImGui::CreateContext()` makes a fresh `io`; `now` is the
clock reading of line 190. -/
def Java_com_tchat_wanxiaot_junglehelper_ImGuiBridge_nativeInit
    (s : Bridge) (env : FontEnv) (now : Int) (width height : Int) (density : F32) : Bridge :=
  if s.g_Initialized then
    { s with log := s.log ++ [LogMsg.alreadyInitialized] }
  else
    let font := resolveFont env s.g_AssetManager
    { s with
      g_DisplayWidth := width
      g_DisplayHeight := height
      g_DisplayDensity := density
      io := { freshIo with DisplaySize := (width, height), FontDefault := font.mainFont }
      fontAttempts := font.attempts
      ui := JungleHelper_Init s.ui
      g_LastFrameTime := now
      g_LastResizeLogTime := now
      g_Initialized := true
      log := s.log ++ [LogMsg.initializing width height density] ++ font.log
               ++ [LogMsg.initializedOk] }

/-- `nativeShutdown`. `ImGui::DestroyContext()` takes the context away. -/
def Java_com_tchat_wanxiaot_junglehelper_ImGuiBridge_nativeShutdown (s : Bridge) : Bridge :=
  if !s.g_Initialized then s
  else
    { s with
      log := s.log ++ [LogMsg.shuttingDown]
      ui := JungleHelper_Shutdown s.ui
      io := freshIo
      g_Initialized := false }

/-- `nativeResize`; `now` is the clock reading of line 228. -/
def Java_com_tchat_wanxiaot_junglehelper_ImGuiBridge_nativeResize
    (s : Bridge) (now : Int) (width height : Int) : Bridge :=
  if !s.g_Initialized then s
  else
    let s1 := { s with g_DisplayWidth := width, g_DisplayHeight := height,
                       io := { s.io with DisplaySize := (width, height) } }
    if now - s1.g_LastResizeLogTime ≥ 1000000000 then
      { s1 with log := s1.log ++ [LogMsg.resized width height], g_LastResizeLogTime := now }
    else s1

/-- `nativeRender`. `ImGui::NewFrame()` refreshes `io.WantCaptureMouse`;
`io.DeltaTime` and the GL calls go to the library and the surface only and are
left out. -/
def Java_com_tchat_wanxiaot_junglehelper_ImGuiBridge_nativeRender
    (s : Bridge) (f : Frame) : Bridge :=
  if !s.g_Initialized then s
  else
    { s with
      g_LastFrameTime := f.now
      io := { s.io with WantCaptureMouse := f.wantCaptureMouse }
      ui := JungleHelper_Render s.ui f }

/-- The body of the `switch (action)` of `nativeOnTouch`: the calls it makes on
`io`, appended to those made before. -/
def touchSwitch (events : List InputEvent) (action : Int) (x y : F32) : List InputEvent :=
  if action = 0 ∨ action = 5 then
    events ++ [InputEvent.mousePos x y] ++ [InputEvent.mouseButton 0 true]
  else if action = 1 ∨ action = 6 then
    events ++ [InputEvent.mousePos x y] ++ [InputEvent.mouseButton 0 false]
  else if action = 2 then
    events ++ [InputEvent.mousePos x y]
  else events

/-- `nativeOnTouch`; `pointerId` is not read. -/
def Java_com_tchat_wanxiaot_junglehelper_ImGuiBridge_nativeOnTouch
    (s : Bridge) (action : Int) (x y : F32) (_pointerId : Int) : Bridge :=
  if !s.g_Initialized then s
  else { s with io := { s.io with InputEvents := touchSwitch s.io.InputEvents action x y } }

/-- `nativeWantCaptureMouse` -/
def Java_com_tchat_wanxiaot_junglehelper_ImGuiBridge_nativeWantCaptureMouse
    (s : Bridge) : Bool :=
  if !s.g_Initialized then false
  else s.io.WantCaptureMouse

/-- `nativeConsumeOcrRequest`: no test of `g_Initialized`. -/
def Java_com_tchat_wanxiaot_junglehelper_ImGuiBridge_nativeConsumeOcrRequest
    (s : Bridge) : Bool × Bridge :=
  ((JungleHelper_ConsumeOcrRequest s.ui).1, { s with ui := (JungleHelper_ConsumeOcrRequest s.ui).2 })

/-- `nativeConsumePermissionRequest`: no test of `g_Initialized`. -/
def Java_com_tchat_wanxiaot_junglehelper_ImGuiBridge_nativeConsumePermissionRequest
    (s : Bridge) : Bool × Bridge :=
  ((JungleHelper_ConsumePermissionRequest s.ui).1,
   { s with ui := (JungleHelper_ConsumePermissionRequest s.ui).2 })

/-- `nativeSetVisible`: no test of `g_Initialized`. -/
def Java_com_tchat_wanxiaot_junglehelper_ImGuiBridge_nativeSetVisible
    (s : Bridge) (visible : Bool) : Bridge :=
  { s with ui := JungleHelper_SetVisible s.ui visible }

/-- `nativeIsVisible`: no test of `g_Initialized`. -/
def Java_com_tchat_wanxiaot_junglehelper_ImGuiBridge_nativeIsVisible (s : Bridge) : Bool :=
  JungleHelper_IsVisible s.ui

/-- `static_cast<uint32_t>(v)` of an `int`. -/
def static_cast_uint32 (v : Int) : Nat := (v % 2 ^ 32).toNat

/-- `static_cast<jlong>(v)` of a `uint64_t`: the two's-complement reading. -/
def static_cast_jlong (v : Nat) : Int :=
  if v % 2 ^ 64 < 2 ^ 63 then ((v % 2 ^ 64 : Nat) : Int) else ((v % 2 ^ 64 : Nat) : Int) - 2 ^ 64

/-- `nativeGetMainWindowSize`: the shift is a `uint64_t` shift, the right operand
of `|` is a `uint32_t` promoted to `uint64_t`. -/
def Java_com_tchat_wanxiaot_junglehelper_ImGuiBridge_nativeGetMainWindowSize
    (s : Bridge) : Int :=
  if !s.g_Initialized then 0
  else
    let widthPx := (JungleHelper_GetMainWindowSize s.ui).1
    let heightPx := (JungleHelper_GetMainWindowSize s.ui).2
    let packed : Nat :=
      ((static_cast_uint32 widthPx <<< 32) % 2 ^ 64) ||| static_cast_uint32 heightPx
    static_cast_jlong packed

/-! ## Call sequences -/

/-- One host call on the bridge, with the clock reading, environment or frame it
meets. -/
inductive Op where
  | setAssetManager (asset_manager : Bool)
  | init (env : FontEnv) (now : Int) (width height : Int) (density : F32)
  | shutdown
  | resize (now : Int) (width height : Int)
  | render (f : Frame)
  | onTouch (action : Int) (x y : F32) (pointerId : Int)
  | wantCaptureMouse
  | consumeOcrRequest
  | consumePermissionRequest
  | setVisible (visible : Bool)
  | isVisible
  | getMainWindowSize

/-- The state after one call; the three pure queries leave it as it is. -/
def step (s : Bridge) : Op → Bridge
  | Op.setAssetManager a => Java_com_tchat_wanxiaot_junglehelper_ImGuiBridge_nativeSetAssetManager s a
  | Op.init env now w h d => Java_com_tchat_wanxiaot_junglehelper_ImGuiBridge_nativeInit s env now w h d
  | Op.shutdown => Java_com_tchat_wanxiaot_junglehelper_ImGuiBridge_nativeShutdown s
  | Op.resize now w h => Java_com_tchat_wanxiaot_junglehelper_ImGuiBridge_nativeResize s now w h
  | Op.render f => Java_com_tchat_wanxiaot_junglehelper_ImGuiBridge_nativeRender s f
  | Op.onTouch a x y p => Java_com_tchat_wanxiaot_junglehelper_ImGuiBridge_nativeOnTouch s a x y p
  | Op.wantCaptureMouse => s
  | Op.consumeOcrRequest => (Java_com_tchat_wanxiaot_junglehelper_ImGuiBridge_nativeConsumeOcrRequest s).2
  | Op.consumePermissionRequest =>
    (Java_com_tchat_wanxiaot_junglehelper_ImGuiBridge_nativeConsumePermissionRequest s).2
  | Op.setVisible v => Java_com_tchat_wanxiaot_junglehelper_ImGuiBridge_nativeSetVisible s v
  | Op.isVisible => s
  | Op.getMainWindowSize => s

/-- The state after a sequence of calls, first call first. -/
def run (s : Bridge) (ops : List Op) : Bridge := ops.foldl step s

/-- A 32-bit word read as a two's-complement `int`. -/
def int32_of_word (n : Int) : Int := if n < 2 ^ 31 then n else n - 2 ^ 32

/-- A font environment in which nothing but the built-in default font loads. -/
def envNothingLoads : FontEnv where
  embeddedLoads := false
  assetOutcome := fun _ => AssetOutcome.openFailed
  systemLoads := fun _ => false
  defaultLoads := true

/-- A frame with the panel expanded, nothing clicked, at the default size. -/
def idleFrame : Frame where
  now := 0
  wantCaptureMouse := false
  closeClicked := false
  beginOpen := true
  sliderAlpha := none
  permissionClicked := false
  ocrClicked := false
  windowWidthPx := 575
  windowHeightPx := 450

/-- The call is `nativeInit`. -/
def Op.isInit : Op → Bool
  | Op.init _ _ _ _ _ => true
  | _ => false

/-- The call is `nativeShutdown`. -/
def Op.isShutdown : Op → Bool
  | Op.shutdown => true
  | _ => false

/-- Two lifecycle calls of the same kind (two inits, whatever their arguments,
or two shutdowns). -/
def sameCall (a b : Op) : Bool :=
  (a.isInit && b.isInit) || (a.isShutdown && b.isShutdown)

/-- The calls `a :: rest` with every run of consecutive calls of one kind
collapsed into its first call. -/
def collapseFrom (a : Op) : List Op → List Op
  | [] => [a]
  | b :: rest => if sameCall a b then collapseFrom a rest else a :: collapseFrom b rest

/-- A call sequence with consecutive duplicates collapsed into one call. -/
def collapse : List Op → List Op
  | [] => []
  | a :: rest => collapseFrom a rest

/-- The number of init calls of a sequence. -/
def countInit (ops : List Op) : Nat := ops.countP Op.isInit

/-- The number of shutdown calls of a sequence, run from `s`, that are issued
while the bridge is Initialized (the shutdowns that are applied). -/
def countShutdownApplied (s : Bridge) : List Op → Nat
  | [] => 0
  | op :: rest =>
    (if op.isShutdown && s.g_Initialized then 1 else 0) + countShutdownApplied (step s op) rest

/-- The call is `nativeRender`. -/
def Op.isRender : Op → Bool
  | Op.render _ => true
  | _ => false

/-- A frame in which the panel is 300 by 200 pixels. -/
def smallFrame : Frame := { idleFrame with now := 16, windowWidthPx := 300, windowHeightPx := 200 }

/-- The call is `nativeSetVisible(true)`. -/
def Op.isSetVisibleTrue : Op → Bool
  | Op.setVisible true => true
  | _ => false

/-- No init call of the sequence, run from `s`, takes effect: each one is
issued while the bridge is Initialized. -/
def noInitTakesEffect (s : Bridge) : List Op → Bool
  | [] => true
  | op :: rest => !(op.isInit && !s.g_Initialized) && noInitTakesEffect (step s op) rest

/-- A frame in which the OCR button is clicked. -/
def ocrClickFrame : Frame := { idleFrame with ocrClicked := true }

/-- The state after a session in which the OCR button was clicked and the
request was not consumed before shutdown. -/
def afterClickAndShutdown : Bridge :=
  run initialState [Op.init envNothingLoads 0 1080 1920 f32_one, Op.render ocrClickFrame,
    Op.shutdown]

/-- One `nativeResize` call with the clock reading it meets. -/
structure ResizeCall where
  now : Int
  width : Int
  height : Int
  deriving DecidableEq, Repr

/-- The call as an `Op`. -/
def ResizeCall.toOp (c : ResizeCall) : Op := Op.resize c.now c.width c.height

/-- The clock readings of those calls of the sequence, run from `s`, that
appended the line "Resized to ..." to the log, oldest first. -/
def resizeLogTimes (s : Bridge) : List ResizeCall → List Int
  | [] => []
  | c :: rest =>
    if (Java_com_tchat_wanxiaot_junglehelper_ImGuiBridge_nativeResize s c.now c.width c.height).log
        = s.log ++ [LogMsg.resized c.width c.height] then
      c.now :: resizeLogTimes
        (Java_com_tchat_wanxiaot_junglehelper_ImGuiBridge_nativeResize s c.now c.width c.height) rest
    else
      resizeLogTimes
        (Java_com_tchat_wanxiaot_junglehelper_ImGuiBridge_nativeResize s c.now c.width c.height) rest

/-- One second in clock ticks (nanoseconds): `std::chrono::seconds(1)`. -/
def oneSecond : Int := 1000000000

/-- The second reading is at least one second after the first. -/
def secondApart (a b : Int) : Prop := b - a ≥ oneSecond

instance : DecidableRel secondApart :=
  fun a b => inferInstanceAs (Decidable (b - a ≥ oneSecond))

/-- Four resizes at 0.5 s, 1.0 s, 1.5 s and 2.1 s. -/
def resizeBurst : List ResizeCall :=
  [{ now := 500000000, width := 1, height := 2 }, { now := 1000000000, width := 3, height := 4 },
   { now := 1500000000, width := 5, height := 6 }, { now := 2100000000, width := 7, height := 8 }]

/-- A resize to 640 by 480 at 2.2 s. -/
def resizeLast : ResizeCall := { now := 2200000000, width := 640, height := 480 }

/-- The state right after a first init at clock 0. -/
def afterInit : Bridge := run initialState [Op.init envNothingLoads 0 1080 1920 f32_one]

/-- The load attempt on a font source succeeds in the environment. -/
def loads (env : FontEnv) : FontSource → Bool
  | FontSource.embedded => env.embeddedLoads
  | FontSource.asset path => decide (env.assetOutcome path = AssetOutcome.loaded)
  | FontSource.system path => env.systemLoads path
  | FontSource.defaultFont => env.defaultLoads

/-- The fixed order of the font sources, as the specification words it: the embedded
blob, the four asset candidates when an asset manager is set, the three system
paths, the built-in default font. -/
def fontOrder (assetManager : Bool) : List FontSource :=
  [FontSource.embedded]
    ++ (if assetManager then assetCandidates.map FontSource.asset else [])
    ++ candidates.map FontSource.system
    ++ [FontSource.defaultFont]

/-- The chain state `c` is what trying the sources `order` one after the other
and stopping at the first that loads gives: that first source is selected, and
the sources tried are those before it and itself. -/
def TriedInOrder (env : FontEnv) (order : List FontSource) (c : FontChain) : Prop :=
  c.mainFont = order.find? (loads env)
  ∧ c.attempts = order.takeWhile (fun x => !loads env x) ++ c.mainFont.toList

instance (env : FontEnv) (order : List FontSource) (c : FontChain) :
    Decidable (TriedInOrder env order c) :=
  inferInstanceAs (Decidable (_ ∧ _))

/-- An environment in which only `/system/fonts/NotoSansCJK.ttc`, the third
system path, and the default font can be loaded; one asset opens with no data. -/
def envOnlyThirdSystem : FontEnv where
  embeddedLoads := false
  assetOutcome := fun path =>
    if path = "fonts/chinese.ttf" then AssetOutcome.noData else AssetOutcome.openFailed
  systemLoads := fun path => decide (path = "/system/fonts/NotoSansCJK.ttc")
  defaultLoads := true

/-- A frame in which the panel is collapsed to its title bar, 300 by 40 pixels. -/
def collapsedFrame : Frame :=
  { idleFrame with now := 32, beginOpen := false, windowWidthPx := 300, windowHeightPx := 40 }

/-- A second session in which the panel is hidden before any render: init, a
render of a 575 by 450 panel, shutdown, init again, `setVisible(false)`. -/
def hiddenSecondSession : Bridge :=
  run initialState [Op.init envNothingLoads 0 1080 1920 f32_one, Op.render idleFrame,
    Op.shutdown, Op.init envNothingLoads 40 1080 1920 f32_one, Op.setVisible false]

/-! ## Theorems -/

/-- C2. For both request flags and every state: a consume call returns the value
the flag held and leaves it false, a second consume call right after returns
false, the other flag keeps its value, and after a render in which the button
was clicked the two consume calls return true then false. -/
theorem consume_returns_previous_and_clears (s : Bridge) :
    ((Java_com_tchat_wanxiaot_junglehelper_ImGuiBridge_nativeConsumeOcrRequest s).1
        = s.ui.g_OcrRequested
      ∧ (Java_com_tchat_wanxiaot_junglehelper_ImGuiBridge_nativeConsumeOcrRequest s).2.ui.g_OcrRequested
        = false
      ∧ (Java_com_tchat_wanxiaot_junglehelper_ImGuiBridge_nativeConsumeOcrRequest
          (Java_com_tchat_wanxiaot_junglehelper_ImGuiBridge_nativeConsumeOcrRequest s).2).1 = false
      ∧ (Java_com_tchat_wanxiaot_junglehelper_ImGuiBridge_nativeConsumeOcrRequest
          s).2.ui.g_PermissionRequested = s.ui.g_PermissionRequested)
    ∧ ((Java_com_tchat_wanxiaot_junglehelper_ImGuiBridge_nativeConsumePermissionRequest s).1
        = s.ui.g_PermissionRequested
      ∧ (Java_com_tchat_wanxiaot_junglehelper_ImGuiBridge_nativeConsumePermissionRequest
          s).2.ui.g_PermissionRequested = false
      ∧ (Java_com_tchat_wanxiaot_junglehelper_ImGuiBridge_nativeConsumePermissionRequest
          (Java_com_tchat_wanxiaot_junglehelper_ImGuiBridge_nativeConsumePermissionRequest s).2).1
        = false
      ∧ (Java_com_tchat_wanxiaot_junglehelper_ImGuiBridge_nativeConsumePermissionRequest
          s).2.ui.g_OcrRequested = s.ui.g_OcrRequested)
    ∧ (∀ f : Frame, s.g_Initialized = true → s.ui.g_ShowMainWindow = true →
        f.beginOpen = true → f.ocrClicked = true →
        (Java_com_tchat_wanxiaot_junglehelper_ImGuiBridge_nativeConsumeOcrRequest
          (Java_com_tchat_wanxiaot_junglehelper_ImGuiBridge_nativeRender s f)).1 = true
        ∧ (Java_com_tchat_wanxiaot_junglehelper_ImGuiBridge_nativeConsumeOcrRequest
            (Java_com_tchat_wanxiaot_junglehelper_ImGuiBridge_nativeConsumeOcrRequest
              (Java_com_tchat_wanxiaot_junglehelper_ImGuiBridge_nativeRender s f)).2).1 = false)
    ∧ (∀ f : Frame, s.g_Initialized = true → s.ui.g_ShowMainWindow = true →
        f.beginOpen = true → f.permissionClicked = true →
        (Java_com_tchat_wanxiaot_junglehelper_ImGuiBridge_nativeConsumePermissionRequest
          (Java_com_tchat_wanxiaot_junglehelper_ImGuiBridge_nativeRender s f)).1 = true
        ∧ (Java_com_tchat_wanxiaot_junglehelper_ImGuiBridge_nativeConsumePermissionRequest
            (Java_com_tchat_wanxiaot_junglehelper_ImGuiBridge_nativeConsumePermissionRequest
              (Java_com_tchat_wanxiaot_junglehelper_ImGuiBridge_nativeRender s f)).2).1 = false) := by
  refine ⟨?_, ?_, ?_, ?_⟩
  · simp [Java_com_tchat_wanxiaot_junglehelper_ImGuiBridge_nativeConsumeOcrRequest,
      JungleHelper_ConsumeOcrRequest]
  · simp [Java_com_tchat_wanxiaot_junglehelper_ImGuiBridge_nativeConsumePermissionRequest,
      JungleHelper_ConsumePermissionRequest]
  · intro f hi hv hb hc
    simp [Java_com_tchat_wanxiaot_junglehelper_ImGuiBridge_nativeConsumeOcrRequest,
      Java_com_tchat_wanxiaot_junglehelper_ImGuiBridge_nativeRender, JungleHelper_Render,
      JungleHelper_ConsumeOcrRequest, hi, hv, hb, hc]
  · intro f hi hv hb hc
    simp only [Java_com_tchat_wanxiaot_junglehelper_ImGuiBridge_nativeConsumePermissionRequest,
      Java_com_tchat_wanxiaot_junglehelper_ImGuiBridge_nativeRender, JungleHelper_Render,
      JungleHelper_ConsumePermissionRequest, hi, hv, hb, hc]
    cases f.ocrClicked <;> cases f.closeClicked <;> cases f.sliderAlpha <;> simp

/-- C2 after one click on the OCR button in a frame of an Initialized bridge:
the first consume call returns true, the second false, and the permission flag
stays false. -/
theorem consume_returns_previous_and_clears_witness :
    (Java_com_tchat_wanxiaot_junglehelper_ImGuiBridge_nativeConsumeOcrRequest
        (Java_com_tchat_wanxiaot_junglehelper_ImGuiBridge_nativeRender afterInit ocrClickFrame)).1
      = true
    ∧ (Java_com_tchat_wanxiaot_junglehelper_ImGuiBridge_nativeConsumeOcrRequest
        (Java_com_tchat_wanxiaot_junglehelper_ImGuiBridge_nativeConsumeOcrRequest
          (Java_com_tchat_wanxiaot_junglehelper_ImGuiBridge_nativeRender
            afterInit ocrClickFrame)).2).1 = false
    ∧ (Java_com_tchat_wanxiaot_junglehelper_ImGuiBridge_nativeConsumePermissionRequest
        (Java_com_tchat_wanxiaot_junglehelper_ImGuiBridge_nativeConsumeOcrRequest
          (Java_com_tchat_wanxiaot_junglehelper_ImGuiBridge_nativeRender
            afterInit ocrClickFrame)).2).1 = false :=
  ⟨((consume_returns_previous_and_clears afterInit).2.2.1 ocrClickFrame
      (by decide) (by decide) (by decide) (by decide)).1,
   ((consume_returns_previous_and_clears afterInit).2.2.1 ocrClickFrame
      (by decide) (by decide) (by decide) (by decide)).2,
   by decide⟩

/-- On two 32-bit words the `uint64_t` expression `(a << 32) | b` is `a * 2^32 + b`. -/
theorem pack_words (a b : Nat) (ha : a < 2 ^ 32) (hb : b < 2 ^ 32) :
    ((a <<< 32) % 2 ^ 64) ||| b = a * 2 ^ 32 + b := by
  have h1 : a <<< 32 = 2 ^ 32 * a := by rw [Nat.shiftLeft_eq, Nat.mul_comm]
  have h2 : 2 ^ 32 * a < 2 ^ 64 := by omega
  rw [h1, Nat.mod_eq_of_lt h2, ← Nat.mul_add_lt_is_or hb a, Nat.mul_comm]

/-- The cast to `uint32_t` yields a 32-bit word, the residue of its argument. -/
theorem static_cast_uint32_spec (v : Int) :
    static_cast_uint32 v < 2 ^ 32 ∧ ((static_cast_uint32 v : Nat) : Int) = v % 2 ^ 32 := by
  unfold static_cast_uint32
  have h0 : 0 ≤ v % 2 ^ 32 := Int.emod_nonneg _ (by norm_num)
  have h1 : v % 2 ^ 32 < 2 ^ 32 := Int.emod_lt_of_pos _ (by norm_num)
  constructor
  · omega
  · omega

/-- C3. While Initialized, the result of `nativeGetMainWindowSize` is a signed
64-bit value whose high 32 bits are the stored width mod 2^32 and whose low 32
bits are the stored height mod 2^32, and for stored values in the range of
`int` both are recovered from the two words; while not Initialized the result
is 0 whatever is stored. -/
theorem getMainWindowSize_packs (s : Bridge)
    (hw : -2 ^ 31 ≤ s.ui.g_MainWindowWidthPx ∧ s.ui.g_MainWindowWidthPx < 2 ^ 31)
    (hh : -2 ^ 31 ≤ s.ui.g_MainWindowHeightPx ∧ s.ui.g_MainWindowHeightPx < 2 ^ 31) :
    (s.g_Initialized = true →
      (-2 ^ 63 ≤ Java_com_tchat_wanxiaot_junglehelper_ImGuiBridge_nativeGetMainWindowSize s
        ∧ Java_com_tchat_wanxiaot_junglehelper_ImGuiBridge_nativeGetMainWindowSize s < 2 ^ 63)
      ∧ (Java_com_tchat_wanxiaot_junglehelper_ImGuiBridge_nativeGetMainWindowSize s % 2 ^ 64) / 2 ^ 32
          = s.ui.g_MainWindowWidthPx % 2 ^ 32
      ∧ (Java_com_tchat_wanxiaot_junglehelper_ImGuiBridge_nativeGetMainWindowSize s % 2 ^ 64) % 2 ^ 32
          = s.ui.g_MainWindowHeightPx % 2 ^ 32
      ∧ int32_of_word
          ((Java_com_tchat_wanxiaot_junglehelper_ImGuiBridge_nativeGetMainWindowSize s % 2 ^ 64)
            / 2 ^ 32) = s.ui.g_MainWindowWidthPx
      ∧ int32_of_word
          ((Java_com_tchat_wanxiaot_junglehelper_ImGuiBridge_nativeGetMainWindowSize s % 2 ^ 64)
            % 2 ^ 32) = s.ui.g_MainWindowHeightPx)
    ∧ (s.g_Initialized = false →
        Java_com_tchat_wanxiaot_junglehelper_ImGuiBridge_nativeGetMainWindowSize s = 0) := by
  constructor
  · intro hi
    obtain ⟨hwl, hwe⟩ := static_cast_uint32_spec s.ui.g_MainWindowWidthPx
    obtain ⟨hhl, hhe⟩ := static_cast_uint32_spec s.ui.g_MainWindowHeightPx
    have hp := pack_words _ _ hwl hhl
    simp only [Java_com_tchat_wanxiaot_junglehelper_ImGuiBridge_nativeGetMainWindowSize, hi,
      JungleHelper_GetMainWindowSize, Bool.not_true, Bool.false_eq_true, if_false, hp,
      static_cast_jlong, int32_of_word]
    generalize static_cast_uint32 s.ui.g_MainWindowWidthPx = a at *
    generalize static_cast_uint32 s.ui.g_MainWindowHeightPx = b at *
    have hlt : a * 2 ^ 32 + b < 2 ^ 64 := by omega
    rw [Nat.mod_eq_of_lt hlt]
    split_ifs <;> omega
  · intro hi
    simp [Java_com_tchat_wanxiaot_junglehelper_ImGuiBridge_nativeGetMainWindowSize, hi]

/-- C3 at a stored footprint of width 575 and height -1: the high word is 575,
the low word is 2^32 - 1, and the pair is recovered. -/
theorem getMainWindowSize_packs_witness :
    (Java_com_tchat_wanxiaot_junglehelper_ImGuiBridge_nativeGetMainWindowSize
        { initialState with
          g_Initialized := true
          ui := { initialUi with g_MainWindowWidthPx := 575, g_MainWindowHeightPx := -1 } }
      % 2 ^ 64) / 2 ^ 32 = 575
    ∧ (Java_com_tchat_wanxiaot_junglehelper_ImGuiBridge_nativeGetMainWindowSize
        { initialState with
          g_Initialized := true
          ui := { initialUi with g_MainWindowWidthPx := 575, g_MainWindowHeightPx := -1 } }
      % 2 ^ 64) % 2 ^ 32 = 4294967295
    ∧ int32_of_word
        ((Java_com_tchat_wanxiaot_junglehelper_ImGuiBridge_nativeGetMainWindowSize
            { initialState with
              g_Initialized := true
              ui := { initialUi with g_MainWindowWidthPx := 575, g_MainWindowHeightPx := -1 } }
          % 2 ^ 64) % 2 ^ 32) = -1 := by
  have h := (getMainWindowSize_packs
    { initialState with
      g_Initialized := true
      ui := { initialUi with g_MainWindowWidthPx := 575, g_MainWindowHeightPx := -1 } }
    (by decide) (by decide)).1 rfl
  exact ⟨h.2.1, h.2.2.1, h.2.2.2.2⟩

/-- C5. On an Initialized bridge `nativeOnTouch` appends to the input queue, in
this order: position and primary-button down for action 0 or 5; position and
primary-button up for action 1 or 6; the position alone for action 2; nothing
for any other action. It changes nothing else, the result does not depend on
`pointerId`, and on a bridge that is not Initialized the call changes nothing. -/
theorem onTouch_events (s : Bridge) (action : Int) (x y : F32) (pointerId : Int) :
    (s.g_Initialized = true →
      (action = 0 ∨ action = 5 →
        Java_com_tchat_wanxiaot_junglehelper_ImGuiBridge_nativeOnTouch s action x y pointerId
          = { s with io := { s.io with InputEvents :=
                s.io.InputEvents ++ [InputEvent.mousePos x y, InputEvent.mouseButton 0 true] } })
      ∧ (action = 1 ∨ action = 6 →
        Java_com_tchat_wanxiaot_junglehelper_ImGuiBridge_nativeOnTouch s action x y pointerId
          = { s with io := { s.io with InputEvents :=
                s.io.InputEvents ++ [InputEvent.mousePos x y, InputEvent.mouseButton 0 false] } })
      ∧ (action = 2 →
        Java_com_tchat_wanxiaot_junglehelper_ImGuiBridge_nativeOnTouch s action x y pointerId
          = { s with io := { s.io with InputEvents :=
                s.io.InputEvents ++ [InputEvent.mousePos x y] } })
      ∧ (action ≠ 0 ∧ action ≠ 1 ∧ action ≠ 2 ∧ action ≠ 5 ∧ action ≠ 6 →
        Java_com_tchat_wanxiaot_junglehelper_ImGuiBridge_nativeOnTouch s action x y pointerId = s))
    ∧ (∀ q : Int,
        Java_com_tchat_wanxiaot_junglehelper_ImGuiBridge_nativeOnTouch s action x y q
          = Java_com_tchat_wanxiaot_junglehelper_ImGuiBridge_nativeOnTouch s action x y pointerId)
    ∧ (s.g_Initialized = false →
        Java_com_tchat_wanxiaot_junglehelper_ImGuiBridge_nativeOnTouch s action x y pointerId = s) := by
  refine ⟨?_, ?_, ?_⟩
  · intro hi
    refine ⟨?_, ?_, ?_, ?_⟩
    · intro h
      simp [Java_com_tchat_wanxiaot_junglehelper_ImGuiBridge_nativeOnTouch, touchSwitch, hi, h]
    · intro h
      have h0 : ¬ (action = 0 ∨ action = 5) := by omega
      simp [Java_com_tchat_wanxiaot_junglehelper_ImGuiBridge_nativeOnTouch, touchSwitch, hi, h, h0]
    · intro h
      have h0 : ¬ (action = 0 ∨ action = 5) := by omega
      have h1 : ¬ (action = 1 ∨ action = 6) := by omega
      simp only [Java_com_tchat_wanxiaot_junglehelper_ImGuiBridge_nativeOnTouch, touchSwitch, hi]
      simp [h0, h1, h]
    · intro h
      have h0 : ¬ (action = 0 ∨ action = 5) := by omega
      have h1 : ¬ (action = 1 ∨ action = 6) := by omega
      have h2 : ¬ (action = 2) := by omega
      rcases s with ⟨_, _, _, _, _, _, _, _, ⟨_, _, _, _⟩, _, _⟩
      simp only at hi
      subst hi
      simp [Java_com_tchat_wanxiaot_junglehelper_ImGuiBridge_nativeOnTouch, touchSwitch, h0, h1, h2]
  · intro q
    rfl
  · intro hi
    simp [Java_com_tchat_wanxiaot_junglehelper_ImGuiBridge_nativeOnTouch, hi]

/-- C5 at three calls on an Initialized bridge: a pointer-down (5) queues the
position then button down, a move (2) queues the position only, action 3 queues
nothing. -/
theorem onTouch_events_witness :
    (Java_com_tchat_wanxiaot_junglehelper_ImGuiBridge_nativeOnTouch
        { initialState with g_Initialized := true } 5 7 9 1).io.InputEvents
      = [InputEvent.mousePos 7 9, InputEvent.mouseButton 0 true]
    ∧ (Java_com_tchat_wanxiaot_junglehelper_ImGuiBridge_nativeOnTouch
        { initialState with g_Initialized := true } 2 7 9 0).io.InputEvents
      = [InputEvent.mousePos 7 9]
    ∧ (Java_com_tchat_wanxiaot_junglehelper_ImGuiBridge_nativeOnTouch
        { initialState with g_Initialized := true } 3 7 9 0).io.InputEvents = [] := by
  have h5 := (onTouch_events { initialState with g_Initialized := true } 5 7 9 1).1 rfl
  have h2 := (onTouch_events { initialState with g_Initialized := true } 2 7 9 0).1 rfl
  have h3 := (onTouch_events { initialState with g_Initialized := true } 3 7 9 0).1 rfl
  refine ⟨?_, ?_, ?_⟩
  · rw [h5.1 (Or.inr rfl)]; rfl
  · rw [h2.2.2.1 rfl]; rfl
  · rw [h3.2.2.2 (by decide)]; rfl

/-- The lifecycle flag after one call: set by an init, cleared by a shutdown,
kept by every other call. -/
theorem step_g_Initialized (s : Bridge) (op : Op) :
    (step s op).g_Initialized = (op.isInit || (s.g_Initialized && !op.isShutdown)) := by
  cases op <;> cases h : s.g_Initialized <;>
    simp [step, Op.isInit, Op.isShutdown, h,
      Java_com_tchat_wanxiaot_junglehelper_ImGuiBridge_nativeSetAssetManager,
      Java_com_tchat_wanxiaot_junglehelper_ImGuiBridge_nativeInit,
      Java_com_tchat_wanxiaot_junglehelper_ImGuiBridge_nativeShutdown,
      Java_com_tchat_wanxiaot_junglehelper_ImGuiBridge_nativeResize,
      Java_com_tchat_wanxiaot_junglehelper_ImGuiBridge_nativeRender,
      Java_com_tchat_wanxiaot_junglehelper_ImGuiBridge_nativeOnTouch,
      Java_com_tchat_wanxiaot_junglehelper_ImGuiBridge_nativeConsumeOcrRequest,
      Java_com_tchat_wanxiaot_junglehelper_ImGuiBridge_nativeConsumePermissionRequest,
      Java_com_tchat_wanxiaot_junglehelper_ImGuiBridge_nativeSetVisible]
  split_ifs <;> simp [h]

/-- Running a sequence: the first call, then the rest. -/
theorem run_cons (s : Bridge) (op : Op) (ops : List Op) :
    run s (op :: ops) = run (step s op) ops := rfl

/-- The lifecycle flag after a sequence depends on the starting state through
its lifecycle flag only. -/
theorem run_g_Initialized_congr (ops : List Op) :
    ∀ s t : Bridge, s.g_Initialized = t.g_Initialized →
      (run s ops).g_Initialized = (run t ops).g_Initialized := by
  induction ops with
  | nil => intro s t h; exact h
  | cons op ops ih =>
    intro s t h
    rw [run_cons, run_cons]
    apply ih
    rw [step_g_Initialized, step_g_Initialized, h]

/-- Collapsing keeps the final lifecycle flag, and on the collapsed sequence the
inits and the applied shutdowns balance against the flag before and after. -/
theorem collapseFrom_balance (rest : List Op) :
    ∀ (a : Op) (s : Bridge), (a.isInit = true ∨ a.isShutdown = true) →
      (∀ op ∈ rest, op.isInit = true ∨ op.isShutdown = true) →
      (run s (a :: rest)).g_Initialized = (run s (collapseFrom a rest)).g_Initialized
      ∧ countInit (collapseFrom a rest) + s.g_Initialized.toNat
          = countShutdownApplied s (collapseFrom a rest)
            + (run s (collapseFrom a rest)).g_Initialized.toNat
            + (a.isInit && s.g_Initialized).toNat := by
  induction rest with
  | nil =>
    intro a s ha _
    refine ⟨rfl, ?_⟩
    have hstep := step_g_Initialized s a
    have hab : ¬ (a.isInit = true ∧ a.isShutdown = true) := by
      cases a <;> simp [Op.isInit, Op.isShutdown]
    simp only [collapseFrom, countInit, countShutdownApplied, run, List.foldl_cons,
      List.foldl_nil, hstep, List.countP_cons, List.countP_nil]
    cases h1 : a.isInit <;> cases h2 : a.isShutdown <;> cases h3 : s.g_Initialized <;>
      simp_all
  | cons b rest ih =>
    intro a s ha hrest
    have hb : b.isInit = true ∨ b.isShutdown = true := hrest b (List.mem_cons_self _ _)
    have hrest' : ∀ op ∈ rest, op.isInit = true ∨ op.isShutdown = true :=
      fun op hop => hrest op (List.mem_cons_of_mem _ hop)
    have hab : ¬ (a.isInit = true ∧ a.isShutdown = true) := by
      cases a <;> simp [Op.isInit, Op.isShutdown]
    have hbb : ¬ (b.isInit = true ∧ b.isShutdown = true) := by
      cases b <;> simp [Op.isInit, Op.isShutdown]
    by_cases hsame : sameCall a b = true
    · have hc : collapseFrom a (b :: rest) = collapseFrom a rest := by
        simp [collapseFrom, hsame]
      rw [hc]
      obtain ⟨ih1, ih2⟩ := ih a s ha hrest'
      refine ⟨?_, ih2⟩
      rw [← ih1, run_cons, run_cons, run_cons]
      apply run_g_Initialized_congr
      rw [step_g_Initialized, step_g_Initialized]
      simp only [sameCall, Bool.or_eq_true, Bool.and_eq_true] at hsame
      cases h1 : a.isInit <;> cases h2 : a.isShutdown <;> cases h3 : b.isInit <;>
        cases h4 : b.isShutdown <;> simp_all
    · have hc : collapseFrom a (b :: rest) = a :: collapseFrom b rest := by
        simp [collapseFrom, hsame]
      rw [hc]
      obtain ⟨ih1, ih2⟩ := ih b (step s a) hb hrest'
      have hstep := step_g_Initialized s a
      refine ⟨?_, ?_⟩
      · exact ih1
      · have hr : run s (a :: collapseFrom b rest) = run (step s a) (collapseFrom b rest) := rfl
        rw [hr]
        simp only [countInit, List.countP_cons, countShutdownApplied] at ih2 ⊢
        rw [hstep] at ih2
        simp only [sameCall, Bool.or_eq_true, Bool.and_eq_true] at hsame
        generalize (run (step s a) (collapseFrom b rest)).g_Initialized = fin at ih2 ⊢
        generalize List.countP Op.isInit (collapseFrom b rest) = ci at ih2 ⊢
        generalize countShutdownApplied (step s a) (collapseFrom b rest) = cs at ih2 ⊢
        cases h1 : a.isInit <;> cases h2 : a.isShutdown <;> cases h3 : b.isInit <;>
          cases h4 : b.isShutdown <;> cases h5 : s.g_Initialized <;> cases fin <;>
          simp_all <;> omega

/-- C1. From a state that is not Initialized, after every sequence of init and
shutdown calls the bridge is Initialized exactly when, with consecutive
duplicate calls collapsed, the init calls outnumber the shutdown calls issued
while Initialized. An init on an Initialized bridge and a shutdown on a bridge
that is not Initialized leave the lifecycle flag as it is; an init always ends
Initialized and a shutdown always ends not Initialized. -/
theorem lifecycle_init_shutdown_counts (s : Bridge) (ops : List Op)
    (hs : s.g_Initialized = false)
    (hops : ∀ op ∈ ops, op.isInit = true ∨ op.isShutdown = true) :
    ((run s ops).g_Initialized = true
        ↔ countShutdownApplied s (collapse ops) < countInit (collapse ops))
    ∧ (∀ (t : Bridge) (env : FontEnv) (now width height : Int) (density : F32),
        (Java_com_tchat_wanxiaot_junglehelper_ImGuiBridge_nativeInit
            t env now width height density).g_Initialized = true
        ∧ (t.g_Initialized = true →
            (Java_com_tchat_wanxiaot_junglehelper_ImGuiBridge_nativeInit
              t env now width height density).g_Initialized = t.g_Initialized))
    ∧ (∀ t : Bridge,
        (Java_com_tchat_wanxiaot_junglehelper_ImGuiBridge_nativeShutdown t).g_Initialized = false
        ∧ (t.g_Initialized = false →
            Java_com_tchat_wanxiaot_junglehelper_ImGuiBridge_nativeShutdown t = t)) := by
  refine ⟨?_, ?_, ?_⟩
  · cases ops with
    | nil => simp [run, collapse, countInit, countShutdownApplied, hs]
    | cons a rest =>
      obtain ⟨h1, h2⟩ := collapseFrom_balance rest a s (hops a (List.mem_cons_self _ _))
        (fun op hop => hops op (List.mem_cons_of_mem _ hop))
      rw [h1]
      simp only [collapse]
      rw [hs] at h2
      cases hf : (run s (collapseFrom a rest)).g_Initialized <;> simp [hf] at h2 ⊢ <;> omega
  · intro t env now width height density
    have h := step_g_Initialized t (Op.init env now width height density)
    simp only [step, Op.isInit, Bool.true_or] at h
    exact ⟨h, fun ht => by rw [h, ht]⟩
  · intro t
    have h := step_g_Initialized t Op.shutdown
    simp only [step, Op.isInit, Op.isShutdown, Bool.not_true, Bool.and_false, Bool.false_or] at h
    refine ⟨h, fun ht => ?_⟩
    simp [Java_com_tchat_wanxiaot_junglehelper_ImGuiBridge_nativeShutdown, ht]

/-- C1 at the sequence init, init, shutdown, shutdown, init from the initial
state: collapsed it is init, shutdown, init, two inits against one applied
shutdown, and the bridge ends Initialized. -/
theorem lifecycle_init_shutdown_counts_witness :
    (run initialState
        [Op.init envNothingLoads 0 1080 1920 f32_one, Op.init envNothingLoads 5 800 600 f32_one,
         Op.shutdown, Op.shutdown, Op.init envNothingLoads 9 1 1 f32_one]).g_Initialized = true
    ∧ countShutdownApplied initialState
        (collapse
          [Op.init envNothingLoads 0 1080 1920 f32_one, Op.init envNothingLoads 5 800 600 f32_one,
           Op.shutdown, Op.shutdown, Op.init envNothingLoads 9 1 1 f32_one]) = 1
    ∧ countInit
        (collapse
          [Op.init envNothingLoads 0 1080 1920 f32_one, Op.init envNothingLoads 5 800 600 f32_one,
           Op.shutdown, Op.shutdown, Op.init envNothingLoads 9 1 1 f32_one]) = 2 := by
  have h := (lifecycle_init_shutdown_counts initialState
    [Op.init envNothingLoads 0 1080 1920 f32_one, Op.init envNothingLoads 5 800 600 f32_one,
     Op.shutdown, Op.shutdown, Op.init envNothingLoads 9 1 1 f32_one] rfl
    (by
      intro op hop
      simp only [List.mem_cons, List.mem_singleton, List.not_mem_nil, or_false] at hop
      rcases hop with rfl | rfl | rfl | rfl | rfl <;> simp [Op.isInit, Op.isShutdown])).1
  have hc : countShutdownApplied initialState
      (collapse
        [Op.init envNothingLoads 0 1080 1920 f32_one, Op.init envNothingLoads 5 800 600 f32_one,
         Op.shutdown, Op.shutdown, Op.init envNothingLoads 9 1 1 f32_one]) = 1 := by
    simp [collapse, collapseFrom, sameCall, Op.isInit, Op.isShutdown, countShutdownApplied,
      step_g_Initialized, initialState]
  have hi : countInit
      (collapse
        [Op.init envNothingLoads 0 1080 1920 f32_one, Op.init envNothingLoads 5 800 600 f32_one,
         Op.shutdown, Op.shutdown, Op.init envNothingLoads 9 1 1 f32_one]) = 2 := by
    simp [collapse, collapseFrom, sameCall, Op.isInit, Op.isShutdown, countInit]
  exact ⟨h.2 (by rw [hc, hi]; decide), hc, hi⟩

/-- A call other than render keeps "while Initialized the stored panel size is
(0, 0)". -/
theorem step_keeps_zero_size (s : Bridge) (op : Op) (hop : op.isRender = false)
    (h : s.g_Initialized = true →
      s.ui.g_MainWindowWidthPx = 0 ∧ s.ui.g_MainWindowHeightPx = 0) :
    (step s op).g_Initialized = true →
      (step s op).ui.g_MainWindowWidthPx = 0 ∧ (step s op).ui.g_MainWindowHeightPx = 0 := by
  cases op <;> cases hi : s.g_Initialized <;>
    simp_all [step, Op.isRender,
      Java_com_tchat_wanxiaot_junglehelper_ImGuiBridge_nativeSetAssetManager,
      Java_com_tchat_wanxiaot_junglehelper_ImGuiBridge_nativeInit,
      Java_com_tchat_wanxiaot_junglehelper_ImGuiBridge_nativeShutdown,
      Java_com_tchat_wanxiaot_junglehelper_ImGuiBridge_nativeResize,
      Java_com_tchat_wanxiaot_junglehelper_ImGuiBridge_nativeOnTouch,
      Java_com_tchat_wanxiaot_junglehelper_ImGuiBridge_nativeConsumeOcrRequest,
      Java_com_tchat_wanxiaot_junglehelper_ImGuiBridge_nativeConsumePermissionRequest,
      Java_com_tchat_wanxiaot_junglehelper_ImGuiBridge_nativeSetVisible,
      JungleHelper_Init, JungleHelper_SetVisible, JungleHelper_ConsumeOcrRequest,
      JungleHelper_ConsumePermissionRequest]
  all_goals split_ifs <;> simp_all

/-- A sequence without render keeps "while Initialized the stored panel size is
(0, 0)". -/
theorem run_keeps_zero_size (ops : List Op) :
    ∀ s : Bridge, (∀ op ∈ ops, op.isRender = false) →
      (s.g_Initialized = true →
        s.ui.g_MainWindowWidthPx = 0 ∧ s.ui.g_MainWindowHeightPx = 0) →
      (run s ops).g_Initialized = true →
        (run s ops).ui.g_MainWindowWidthPx = 0 ∧ (run s ops).ui.g_MainWindowHeightPx = 0 := by
  induction ops with
  | nil => intro s _ h; exact h
  | cons op ops ih =>
    intro s hops h
    rw [run_cons]
    exact ih (step s op) (fun o ho => hops o (List.mem_cons_of_mem _ ho))
      (step_keeps_zero_size s op (hops op (List.mem_cons_self _ _)) h)

/-- C4. Whatever the state before (any earlier sessions and their renders), once
an init call has taken effect and as long as no render call follows it, after
any further calls `nativeGetMainWindowSize` returns 0. -/
theorem getMainWindowSize_zero_before_render (s : Bridge) (env : FontEnv)
    (now width height : Int) (density : F32) (ops : List Op)
    (hs : s.g_Initialized = false) (hops : ∀ op ∈ ops, op.isRender = false) :
    Java_com_tchat_wanxiaot_junglehelper_ImGuiBridge_nativeGetMainWindowSize
      (run (Java_com_tchat_wanxiaot_junglehelper_ImGuiBridge_nativeInit
        s env now width height density) ops) = 0 := by
  have h0 : (Java_com_tchat_wanxiaot_junglehelper_ImGuiBridge_nativeInit
        s env now width height density).g_Initialized = true →
      (Java_com_tchat_wanxiaot_junglehelper_ImGuiBridge_nativeInit
        s env now width height density).ui.g_MainWindowWidthPx = 0
      ∧ (Java_com_tchat_wanxiaot_junglehelper_ImGuiBridge_nativeInit
        s env now width height density).ui.g_MainWindowHeightPx = 0 := by
    intro _
    simp [Java_com_tchat_wanxiaot_junglehelper_ImGuiBridge_nativeInit, hs, JungleHelper_Init]
  have h := run_keeps_zero_size ops _ hops h0
  cases hi : (run (Java_com_tchat_wanxiaot_junglehelper_ImGuiBridge_nativeInit
        s env now width height density) ops).g_Initialized with
  | false => simp [Java_com_tchat_wanxiaot_junglehelper_ImGuiBridge_nativeGetMainWindowSize, hi]
  | true =>
    obtain ⟨hw, hh⟩ := h hi
    simp only [Java_com_tchat_wanxiaot_junglehelper_ImGuiBridge_nativeGetMainWindowSize, hi,
      JungleHelper_GetMainWindowSize, hw, hh]
    decide

/-- C4 at a second session: the first session rendered a 575 by 450 panel
(the query was non-zero then), the bridge was shut down and initialised again,
then resized and touched without a render: the query returns 0. -/
theorem getMainWindowSize_zero_before_render_witness :
    Java_com_tchat_wanxiaot_junglehelper_ImGuiBridge_nativeGetMainWindowSize
        (run initialState [Op.init envNothingLoads 0 1080 1920 f32_one, Op.render idleFrame]) ≠ 0
    ∧ (run initialState [Op.init envNothingLoads 0 1080 1920 f32_one, Op.render idleFrame,
          Op.shutdown]).ui.g_MainWindowWidthPx = 575
    ∧ Java_com_tchat_wanxiaot_junglehelper_ImGuiBridge_nativeGetMainWindowSize
        (run (Java_com_tchat_wanxiaot_junglehelper_ImGuiBridge_nativeInit
              (run initialState [Op.init envNothingLoads 0 1080 1920 f32_one, Op.render idleFrame,
                Op.shutdown])
              envNothingLoads 40 1080 1920 f32_one)
          [Op.resize 50 800 600, Op.onTouch 0 3 4 0, Op.getMainWindowSize]) = 0 := by
  refine ⟨by decide, by decide, ?_⟩
  exact getMainWindowSize_zero_before_render _ envNothingLoads 40 1080 1920 f32_one
    [Op.resize 50 800 600, Op.onTouch 0 3 4 0, Op.getMainWindowSize] (by decide) (by decide)

/-- C8 as stated fails: after init, a render of a 575 by 450 panel and
`setVisible(false)`, a further render (whose frame would give 300 by 200) leaves
the stored size at 575 by 450, the footprint the earlier render recorded. -/
theorem render_hidden_keeps_old_footprint :
    (run initialState [Op.init envNothingLoads 0 1080 1920 f32_one, Op.render idleFrame,
        Op.setVisible false]).g_Initialized = true
    ∧ JungleHelper_GetMainWindowSize
        (Java_com_tchat_wanxiaot_junglehelper_ImGuiBridge_nativeRender
          (run initialState [Op.init envNothingLoads 0 1080 1920 f32_one, Op.render idleFrame,
            Op.setVisible false]) smallFrame).ui = (575, 450)
    ∧ JungleHelper_GetMainWindowSize
        (Java_com_tchat_wanxiaot_junglehelper_ImGuiBridge_nativeRender
          (run initialState [Op.init envNothingLoads 0 1080 1920 f32_one, Op.render idleFrame,
            Op.setVisible false]) smallFrame).ui
        ≠ (smallFrame.windowWidthPx, smallFrame.windowHeightPx)
    ∧ Java_com_tchat_wanxiaot_junglehelper_ImGuiBridge_nativeGetMainWindowSize
        (Java_com_tchat_wanxiaot_junglehelper_ImGuiBridge_nativeRender
          (run initialState [Op.init envNothingLoads 0 1080 1920 f32_one, Op.render idleFrame,
            Op.setVisible false]) smallFrame)
        = Java_com_tchat_wanxiaot_junglehelper_ImGuiBridge_nativeGetMainWindowSize
            (run initialState [Op.init envNothingLoads 0 1080 1920 f32_one,
              Op.render idleFrame]) := by
  decide

/-- C8, amended. A render call made while the bridge is Initialized and the
panel is visible stores the footprint of that frame, whether the panel is
expanded or collapsed in it and whether or not it is closed in it, and
`nativeGetMainWindowSize` right after it returns that footprint packed, whatever
was stored before. A render call made while the panel is not visible leaves the
stored size, and the whole panel state, as it was, and
`nativeGetMainWindowSize` returns after it what it returned before it. -/
theorem render_records_footprint (s : Bridge) (f : Frame) (hi : s.g_Initialized = true) :
    (s.ui.g_ShowMainWindow = true →
      JungleHelper_GetMainWindowSize
          (Java_com_tchat_wanxiaot_junglehelper_ImGuiBridge_nativeRender s f).ui
        = (f.windowWidthPx, f.windowHeightPx)
      ∧ Java_com_tchat_wanxiaot_junglehelper_ImGuiBridge_nativeGetMainWindowSize
          (Java_com_tchat_wanxiaot_junglehelper_ImGuiBridge_nativeRender s f)
        = static_cast_jlong
            (((static_cast_uint32 f.windowWidthPx <<< 32) % 2 ^ 64)
              ||| static_cast_uint32 f.windowHeightPx))
    ∧ (s.ui.g_ShowMainWindow = false →
      (Java_com_tchat_wanxiaot_junglehelper_ImGuiBridge_nativeRender s f).ui = s.ui
      ∧ Java_com_tchat_wanxiaot_junglehelper_ImGuiBridge_nativeGetMainWindowSize
          (Java_com_tchat_wanxiaot_junglehelper_ImGuiBridge_nativeRender s f)
        = Java_com_tchat_wanxiaot_junglehelper_ImGuiBridge_nativeGetMainWindowSize s) := by
  constructor
  · intro hv
    constructor
    · simp only [Java_com_tchat_wanxiaot_junglehelper_ImGuiBridge_nativeRender, hi,
        JungleHelper_Render, hv, JungleHelper_GetMainWindowSize]
      simp
    · simp only [Java_com_tchat_wanxiaot_junglehelper_ImGuiBridge_nativeGetMainWindowSize,
        Java_com_tchat_wanxiaot_junglehelper_ImGuiBridge_nativeRender, hi,
        JungleHelper_Render, hv, JungleHelper_GetMainWindowSize]
      simp
  · intro hv
    constructor
    · simp [Java_com_tchat_wanxiaot_junglehelper_ImGuiBridge_nativeRender, hi,
        JungleHelper_Render, hv]
    · simp [Java_com_tchat_wanxiaot_junglehelper_ImGuiBridge_nativeGetMainWindowSize,
        Java_com_tchat_wanxiaot_junglehelper_ImGuiBridge_nativeRender, hi,
        JungleHelper_Render, hv, JungleHelper_GetMainWindowSize]

/-- C8, amended, at two frames. A collapsed frame of a visible panel: its
footprint, 300 by 40, replaces the 575 by 450 stored before, and the query
returns 300 * 2^32 + 40. A render of a panel hidden at the start of a second
session: the query returned 0 before it and returns 0 after it, not the 575 by
450 of the first session. -/
theorem render_records_footprint_witness :
    JungleHelper_GetMainWindowSize
        (Java_com_tchat_wanxiaot_junglehelper_ImGuiBridge_nativeRender
          (run initialState [Op.init envNothingLoads 0 1080 1920 f32_one, Op.render idleFrame])
          collapsedFrame).ui = (300, 40)
    ∧ Java_com_tchat_wanxiaot_junglehelper_ImGuiBridge_nativeGetMainWindowSize
        (Java_com_tchat_wanxiaot_junglehelper_ImGuiBridge_nativeRender
          (run initialState [Op.init envNothingLoads 0 1080 1920 f32_one, Op.render idleFrame])
          collapsedFrame) = 1288490188840
    ∧ Java_com_tchat_wanxiaot_junglehelper_ImGuiBridge_nativeGetMainWindowSize
        (Java_com_tchat_wanxiaot_junglehelper_ImGuiBridge_nativeRender
          hiddenSecondSession smallFrame) = 0 := by
  have h1 := (render_records_footprint
    (run initialState [Op.init envNothingLoads 0 1080 1920 f32_one, Op.render idleFrame])
    collapsedFrame (by decide)).1 (by decide)
  have h2 := (render_records_footprint hiddenSecondSession smallFrame (by decide)).2 (by decide)
  refine ⟨h1.1, ?_, ?_⟩
  · rw [h1.2]; decide
  · rw [h2.2]; decide

/-- C7 as stated fails: in the state reached by init, a render with the OCR
button clicked, and shutdown, the bridge is not Initialized, yet
`nativeConsumeOcrRequest` returns true and clears the flag, and
`nativeSetVisible(false)` changes the panel visibility. -/
theorem consume_ignores_lifecycle :
    afterClickAndShutdown.g_Initialized = false
    ∧ (Java_com_tchat_wanxiaot_junglehelper_ImGuiBridge_nativeConsumeOcrRequest
        afterClickAndShutdown).1 = true
    ∧ (Java_com_tchat_wanxiaot_junglehelper_ImGuiBridge_nativeConsumeOcrRequest
        afterClickAndShutdown).2 ≠ afterClickAndShutdown
    ∧ Java_com_tchat_wanxiaot_junglehelper_ImGuiBridge_nativeSetVisible
        afterClickAndShutdown false ≠ afterClickAndShutdown := by
  decide

/-- C7, amended. While the bridge is not Initialized, resize, render and
dispatchTouch leave the whole state unchanged, `nativeWantCaptureMouse` returns
false and `nativeGetMainWindowSize` returns 0. The consume calls and
`nativeSetVisible` do not test the lifecycle flag: a consume call returns the
stored flag and clears it, touching nothing else, so it returns false and
changes nothing exactly when the flag is already false; `nativeSetVisible`
stores its argument and touches nothing else; `nativeIsVisible` returns the
stored visibility. -/
theorem not_initialized_calls (s : Bridge) (hs : s.g_Initialized = false) :
    (∀ now width height : Int,
      Java_com_tchat_wanxiaot_junglehelper_ImGuiBridge_nativeResize s now width height = s)
    ∧ (∀ f : Frame, Java_com_tchat_wanxiaot_junglehelper_ImGuiBridge_nativeRender s f = s)
    ∧ (∀ (action : Int) (x y : F32) (pointerId : Int),
      Java_com_tchat_wanxiaot_junglehelper_ImGuiBridge_nativeOnTouch s action x y pointerId = s)
    ∧ Java_com_tchat_wanxiaot_junglehelper_ImGuiBridge_nativeWantCaptureMouse s = false
    ∧ Java_com_tchat_wanxiaot_junglehelper_ImGuiBridge_nativeGetMainWindowSize s = 0
    ∧ Java_com_tchat_wanxiaot_junglehelper_ImGuiBridge_nativeConsumeOcrRequest s
        = (s.ui.g_OcrRequested, { s with ui := { s.ui with g_OcrRequested := false } })
    ∧ ((Java_com_tchat_wanxiaot_junglehelper_ImGuiBridge_nativeConsumeOcrRequest s).2 = s
        ↔ s.ui.g_OcrRequested = false)
    ∧ Java_com_tchat_wanxiaot_junglehelper_ImGuiBridge_nativeConsumePermissionRequest s
        = (s.ui.g_PermissionRequested,
           { s with ui := { s.ui with g_PermissionRequested := false } })
    ∧ ((Java_com_tchat_wanxiaot_junglehelper_ImGuiBridge_nativeConsumePermissionRequest s).2 = s
        ↔ s.ui.g_PermissionRequested = false)
    ∧ (∀ visible : Bool,
      Java_com_tchat_wanxiaot_junglehelper_ImGuiBridge_nativeSetVisible s visible
        = { s with ui := { s.ui with g_ShowMainWindow := visible } })
    ∧ Java_com_tchat_wanxiaot_junglehelper_ImGuiBridge_nativeIsVisible s
        = s.ui.g_ShowMainWindow := by
  refine ⟨?_, ?_, ?_, ?_, ?_, rfl, ?_, rfl, ?_, fun _ => rfl, rfl⟩
  · intro now width height
    simp [Java_com_tchat_wanxiaot_junglehelper_ImGuiBridge_nativeResize, hs]
  · intro f
    simp [Java_com_tchat_wanxiaot_junglehelper_ImGuiBridge_nativeRender, hs]
  · intro action x y pointerId
    simp [Java_com_tchat_wanxiaot_junglehelper_ImGuiBridge_nativeOnTouch, hs]
  · simp [Java_com_tchat_wanxiaot_junglehelper_ImGuiBridge_nativeWantCaptureMouse, hs]
  · simp [Java_com_tchat_wanxiaot_junglehelper_ImGuiBridge_nativeGetMainWindowSize, hs]
  · rcases s with ⟨_, _, _, _, _, _, _, ⟨_, _, _, _, _, _⟩, _, _, _⟩
    simp [Java_com_tchat_wanxiaot_junglehelper_ImGuiBridge_nativeConsumeOcrRequest,
      JungleHelper_ConsumeOcrRequest]
  · rcases s with ⟨_, _, _, _, _, _, _, ⟨_, _, _, _, _, _⟩, _, _, _⟩
    simp [Java_com_tchat_wanxiaot_junglehelper_ImGuiBridge_nativeConsumePermissionRequest,
      JungleHelper_ConsumePermissionRequest]

/-- C7, amended, at the state left by a session with an unconsumed OCR click:
render changes nothing there and the size query returns 0. -/
theorem not_initialized_calls_witness :
    Java_com_tchat_wanxiaot_junglehelper_ImGuiBridge_nativeRender afterClickAndShutdown idleFrame
      = afterClickAndShutdown
    ∧ Java_com_tchat_wanxiaot_junglehelper_ImGuiBridge_nativeGetMainWindowSize
        afterClickAndShutdown = 0 :=
  ⟨(not_initialized_calls afterClickAndShutdown (by decide)).2.1 idleFrame,
   (not_initialized_calls afterClickAndShutdown (by decide)).2.2.2.2.1⟩

/-- C10 as stated fails: with the panel hidden by `setVisible(false)`, a
shutdown followed by an init (no `setVisible` call) makes it visible again, and
so does a first init after `setVisible(false)`. -/
theorem init_makes_visible_again :
    (run initialState [Op.init envNothingLoads 0 1080 1920 f32_one,
        Op.setVisible false]).ui.g_ShowMainWindow = false
    ∧ Java_com_tchat_wanxiaot_junglehelper_ImGuiBridge_nativeIsVisible
        (run (run initialState [Op.init envNothingLoads 0 1080 1920 f32_one, Op.setVisible false])
          [Op.shutdown, Op.init envNothingLoads 9 1080 1920 f32_one]) = true
    ∧ (run initialState [Op.setVisible false]).ui.g_ShowMainWindow = false
    ∧ Java_com_tchat_wanxiaot_junglehelper_ImGuiBridge_nativeIsVisible
        (run (run initialState [Op.setVisible false])
          [Op.init envNothingLoads 0 1080 1920 f32_one]) = true := by
  decide

/-- One call that is neither `setVisible(true)` nor an init that takes effect
keeps a hidden panel hidden. -/
theorem step_keeps_hidden (s : Bridge) (op : Op) (hv : s.ui.g_ShowMainWindow = false)
    (hop : op.isSetVisibleTrue = false) (hinit : (op.isInit && !s.g_Initialized) = false) :
    (step s op).ui.g_ShowMainWindow = false := by
  cases op <;> cases hi : s.g_Initialized <;>
    simp_all [step, Op.isInit, Op.isSetVisibleTrue,
      Java_com_tchat_wanxiaot_junglehelper_ImGuiBridge_nativeSetAssetManager,
      Java_com_tchat_wanxiaot_junglehelper_ImGuiBridge_nativeInit,
      Java_com_tchat_wanxiaot_junglehelper_ImGuiBridge_nativeShutdown,
      Java_com_tchat_wanxiaot_junglehelper_ImGuiBridge_nativeResize,
      Java_com_tchat_wanxiaot_junglehelper_ImGuiBridge_nativeRender,
      Java_com_tchat_wanxiaot_junglehelper_ImGuiBridge_nativeOnTouch,
      Java_com_tchat_wanxiaot_junglehelper_ImGuiBridge_nativeConsumeOcrRequest,
      Java_com_tchat_wanxiaot_junglehelper_ImGuiBridge_nativeConsumePermissionRequest,
      Java_com_tchat_wanxiaot_junglehelper_ImGuiBridge_nativeSetVisible,
      JungleHelper_Shutdown, JungleHelper_SetVisible, JungleHelper_ConsumeOcrRequest,
      JungleHelper_ConsumePermissionRequest, JungleHelper_Render]
  all_goals first
    | done
    | (split_ifs <;> simp_all)
    | (rename_i v; cases v <;> simp_all [Op.isSetVisibleTrue])

/-- C10, amended. With the panel hidden, after every sequence of calls that
holds no `setVisible(true)` and in which no init takes effect (each init is
issued while the bridge is Initialized), `nativeIsVisible` still returns false;
an init that takes effect makes the panel visible. -/
theorem hidden_until_setVisible_or_init (s : Bridge) (ops : List Op)
    (hv : s.ui.g_ShowMainWindow = false)
    (hops : ∀ op ∈ ops, op.isSetVisibleTrue = false)
    (hinit : noInitTakesEffect s ops = true) :
    Java_com_tchat_wanxiaot_junglehelper_ImGuiBridge_nativeIsVisible (run s ops) = false
    ∧ (∀ (t : Bridge) (env : FontEnv) (now width height : Int) (density : F32),
        t.g_Initialized = false →
        Java_com_tchat_wanxiaot_junglehelper_ImGuiBridge_nativeIsVisible
          (Java_com_tchat_wanxiaot_junglehelper_ImGuiBridge_nativeInit
            t env now width height density) = true) := by
  constructor
  · induction ops generalizing s with
    | nil => exact hv
    | cons op ops ih =>
      simp only [noInitTakesEffect, Bool.and_eq_true, Bool.not_eq_true'] at hinit
      rw [run_cons]
      exact ih (step s op)
        (step_keeps_hidden s op hv (hops op (List.mem_cons_self _ _)) hinit.1)
        (fun o ho => hops o (List.mem_cons_of_mem _ ho)) hinit.2
  · intro t env now width height density ht
    simp [Java_com_tchat_wanxiaot_junglehelper_ImGuiBridge_nativeIsVisible,
      Java_com_tchat_wanxiaot_junglehelper_ImGuiBridge_nativeInit, ht, JungleHelper_Init,
      JungleHelper_IsVisible]

/-- C10, amended, at a hidden panel on an Initialized bridge: a repeated init,
a resize, two renders, a touch, both consume calls and a shutdown leave it
hidden. -/
theorem hidden_until_setVisible_or_init_witness :
    Java_com_tchat_wanxiaot_junglehelper_ImGuiBridge_nativeIsVisible
      (run (run initialState [Op.init envNothingLoads 0 1080 1920 f32_one, Op.setVisible false])
        [Op.init envNothingLoads 5 1 1 f32_one, Op.resize 7 800 600, Op.render idleFrame,
         Op.render ocrClickFrame, Op.onTouch 0 1 1 0, Op.consumeOcrRequest,
         Op.consumePermissionRequest, Op.isVisible, Op.shutdown]) = false :=
  (hidden_until_setVisible_or_init
    (run initialState [Op.init envNothingLoads 0 1080 1920 f32_one, Op.setVisible false])
    [Op.init envNothingLoads 5 1 1 f32_one, Op.resize 7 800 600, Op.render idleFrame,
     Op.render ocrClickFrame, Op.onTouch 0 1 1 0, Op.consumeOcrRequest,
     Op.consumePermissionRequest, Op.isVisible, Op.shutdown]
    (by decide) (by decide) (by decide)).1

/-- One resize on an Initialized bridge: the display size is the arguments, the
density and the lifecycle flag stay, and either a second or more has passed
since the last log time, the line is logged and the log time becomes `now`, or
less has passed and neither the log nor the log time changes. -/
theorem resize_step (s : Bridge) (c : ResizeCall) (hi : s.g_Initialized = true) :
    (Java_com_tchat_wanxiaot_junglehelper_ImGuiBridge_nativeResize
        s c.now c.width c.height).g_Initialized = true
    ∧ (Java_com_tchat_wanxiaot_junglehelper_ImGuiBridge_nativeResize
        s c.now c.width c.height).g_DisplayWidth = c.width
    ∧ (Java_com_tchat_wanxiaot_junglehelper_ImGuiBridge_nativeResize
        s c.now c.width c.height).g_DisplayHeight = c.height
    ∧ (Java_com_tchat_wanxiaot_junglehelper_ImGuiBridge_nativeResize
        s c.now c.width c.height).io.DisplaySize = (c.width, c.height)
    ∧ (Java_com_tchat_wanxiaot_junglehelper_ImGuiBridge_nativeResize
        s c.now c.width c.height).g_DisplayDensity = s.g_DisplayDensity
    ∧ ((secondApart s.g_LastResizeLogTime c.now
          ∧ (Java_com_tchat_wanxiaot_junglehelper_ImGuiBridge_nativeResize
              s c.now c.width c.height).log = s.log ++ [LogMsg.resized c.width c.height]
          ∧ (Java_com_tchat_wanxiaot_junglehelper_ImGuiBridge_nativeResize
              s c.now c.width c.height).g_LastResizeLogTime = c.now)
        ∨ (¬ secondApart s.g_LastResizeLogTime c.now
          ∧ (Java_com_tchat_wanxiaot_junglehelper_ImGuiBridge_nativeResize
              s c.now c.width c.height).log = s.log
          ∧ (Java_com_tchat_wanxiaot_junglehelper_ImGuiBridge_nativeResize
              s c.now c.width c.height).g_LastResizeLogTime = s.g_LastResizeLogTime)) := by
  by_cases h : c.now - s.g_LastResizeLogTime ≥ 1000000000
  · simp [Java_com_tchat_wanxiaot_junglehelper_ImGuiBridge_nativeResize, hi, h, secondApart,
      oneSecond]
  · simp [Java_com_tchat_wanxiaot_junglehelper_ImGuiBridge_nativeResize, hi, h, secondApart,
      oneSecond]

/-- After a sequence of resizes on an Initialized bridge the bridge is still
Initialized with the same density. -/
theorem run_resizes_keeps (calls : List ResizeCall) :
    ∀ s : Bridge, s.g_Initialized = true →
      (run s (calls.map ResizeCall.toOp)).g_Initialized = true
      ∧ (run s (calls.map ResizeCall.toOp)).g_DisplayDensity = s.g_DisplayDensity := by
  induction calls with
  | nil => intro s hi; exact ⟨hi, rfl⟩
  | cons c calls ih =>
    intro s hi
    have h := resize_step s c hi
    have h2 := ih (Java_com_tchat_wanxiaot_junglehelper_ImGuiBridge_nativeResize
      s c.now c.width c.height) h.1
    simp only [List.map_cons, run_cons, step, ResizeCall.toOp]
    exact ⟨h2.1, h2.2.trans h.2.2.2.2.1⟩

/-- The log times of a resize sequence form a chain from the last log time of
the starting state, each at least one second after the one before. -/
theorem resizeLogTimes_chain (calls : List ResizeCall) :
    ∀ s : Bridge, s.g_Initialized = true →
      List.Chain secondApart s.g_LastResizeLogTime (resizeLogTimes s calls) := by
  induction calls with
  | nil => intro s _; exact List.Chain.nil
  | cons c calls ih =>
    intro s hi
    have h := resize_step s c hi
    have h2 := ih (Java_com_tchat_wanxiaot_junglehelper_ImGuiBridge_nativeResize
      s c.now c.width c.height) h.1
    rcases h.2.2.2.2.2 with ⟨hsec, hlog, hlast⟩ | ⟨_, hlog, hlast⟩
    · rw [hlast] at h2
      simp only [resizeLogTimes, hlog, if_true]
      exact List.Chain.cons hsec h2
    · rw [hlast] at h2
      simp only [resizeLogTimes, hlog]
      simpa using h2

/-- C9. For every sequence of resize calls on an Initialized bridge followed
by one more resize call `c`: after `c` the display width and height (and the
display size handed to the UI library) are the arguments of `c` and the density
is the one before the sequence; `c` logs exactly when its clock reading is at
least one second after the last log time (the time of the previous logged
resize, or of init), and then that time becomes the last log time; the clock
readings of the logged calls are each at least one second after the last log
time before the sequence and pairwise at least one second apart; and an init
that takes effect sets the last log time to its own clock reading. -/
theorem resize_updates_and_rate_limits (s : Bridge) (calls : List ResizeCall) (c : ResizeCall)
    (hi : s.g_Initialized = true) :
    ((run s ((calls ++ [c]).map ResizeCall.toOp)).g_DisplayWidth = c.width
      ∧ (run s ((calls ++ [c]).map ResizeCall.toOp)).g_DisplayHeight = c.height
      ∧ (run s ((calls ++ [c]).map ResizeCall.toOp)).io.DisplaySize = (c.width, c.height)
      ∧ (run s ((calls ++ [c]).map ResizeCall.toOp)).g_DisplayDensity = s.g_DisplayDensity)
    ∧ ((secondApart (run s (calls.map ResizeCall.toOp)).g_LastResizeLogTime c.now
          ∧ (run s ((calls ++ [c]).map ResizeCall.toOp)).log
              = (run s (calls.map ResizeCall.toOp)).log ++ [LogMsg.resized c.width c.height]
          ∧ (run s ((calls ++ [c]).map ResizeCall.toOp)).g_LastResizeLogTime = c.now)
        ∨ (¬ secondApart (run s (calls.map ResizeCall.toOp)).g_LastResizeLogTime c.now
          ∧ (run s ((calls ++ [c]).map ResizeCall.toOp)).log
              = (run s (calls.map ResizeCall.toOp)).log
          ∧ (run s ((calls ++ [c]).map ResizeCall.toOp)).g_LastResizeLogTime
              = (run s (calls.map ResizeCall.toOp)).g_LastResizeLogTime))
    ∧ List.Pairwise secondApart (s.g_LastResizeLogTime :: resizeLogTimes s (calls ++ [c]))
    ∧ (∀ (t : Bridge) (env : FontEnv) (now width height : Int) (density : F32),
        t.g_Initialized = false →
        (Java_com_tchat_wanxiaot_junglehelper_ImGuiBridge_nativeInit
          t env now width height density).g_LastResizeLogTime = now) := by
  have hrun : run s ((calls ++ [c]).map ResizeCall.toOp)
      = Java_com_tchat_wanxiaot_junglehelper_ImGuiBridge_nativeResize
          (run s (calls.map ResizeCall.toOp)) c.now c.width c.height := by
    simp [run, List.foldl_append, step, ResizeCall.toOp]
  obtain ⟨hk1, hk2⟩ := run_resizes_keeps calls s hi
  have h := resize_step (run s (calls.map ResizeCall.toOp)) c hk1
  rw [hrun]
  refine ⟨⟨h.2.1, h.2.2.1, h.2.2.2.1, h.2.2.2.2.1.trans hk2⟩, h.2.2.2.2.2, ?_, ?_⟩
  · haveI : IsTrans Int secondApart :=
      ⟨fun a b d h1 h2 => by simp only [secondApart, oneSecond] at *; omega⟩
    exact (resizeLogTimes_chain (calls ++ [c]) s hi).pairwise
  · intro t env now width height density ht
    simp [Java_com_tchat_wanxiaot_junglehelper_ImGuiBridge_nativeInit, ht]

/-- C9 at five resizes after an init at clock 0, at 0.5 s, 1.0 s, 1.5 s, 2.1 s
and 2.2 s: the calls at 1.0 s and 2.1 s log, the others do not, and after the
last call the display size is that call's 640 by 480. -/
theorem resize_updates_and_rate_limits_witness :
    (run afterInit ((resizeBurst ++ [resizeLast]).map ResizeCall.toOp)).g_DisplayWidth = 640
    ∧ resizeLogTimes afterInit (resizeBurst ++ [resizeLast]) = [1000000000, 2100000000]
    ∧ List.Pairwise secondApart
        (afterInit.g_LastResizeLogTime :: resizeLogTimes afterInit (resizeBurst ++ [resizeLast])) :=
  ⟨(resize_updates_and_rate_limits afterInit resizeBurst resizeLast (by decide)).1.1,
   by decide,
   (resize_updates_and_rate_limits afterInit resizeBurst resizeLast (by decide)).2.2.1⟩

/-- Once a source of `order` has loaded, sources listed after `order` change
neither the selection nor the sources tried. -/
theorem triedInOrder_append_of_some (env : FontEnv) (order more : List FontSource)
    (c : FontChain) (h : TriedInOrder env order c) (hsome : c.mainFont.isSome = true) :
    TriedInOrder env (order ++ more) c := by
  obtain ⟨h1, h2⟩ := h
  have hfind : ∀ (o : List FontSource) (x : FontSource), o.find? (loads env) = some x →
      (o ++ more).find? (loads env) = some x
      ∧ (o ++ more).takeWhile (fun y => !loads env y) = o.takeWhile (fun y => !loads env y) := by
    intro o
    induction o with
    | nil => intro x hx; simp at hx
    | cons a o ih =>
      intro x hx
      by_cases ha : loads env a = true
      · simp [List.find?, List.takeWhile, ha] at hx ⊢
        exact hx
      · simp only [Bool.not_eq_true] at ha
        simp only [List.find?, ha] at hx
        have := ih x hx
        simp [List.find?, List.takeWhile, ha, this.1, this.2]
  obtain ⟨x, hx⟩ := Option.isSome_iff_exists.mp hsome
  rw [hx] at h1
  have := hfind order x h1.symm
  exact ⟨by rw [hx, this.1], by rw [h2, this.2]⟩

/-- When no source of `order` has loaded, all of them fail and all were tried. -/
theorem triedInOrder_none (env : FontEnv) (order : List FontSource) (c : FontChain)
    (h : TriedInOrder env order c) (hnone : c.mainFont = none) :
    c.attempts = order ∧ ∀ x ∈ order, loads env x = false := by
  obtain ⟨h1, h2⟩ := h
  rw [hnone] at h1
  have hall : ∀ x ∈ order, loads env x = false := by
    intro x hx
    have := List.find?_eq_none.mp h1.symm x hx
    simpa using this
  refine ⟨?_, hall⟩
  rw [h2, hnone]
  simp only [Option.toList, List.append_nil]
  exact List.takeWhile_eq_self_iff.mpr (fun x hx => by simp [hall x hx])

/-- After a failed `order`, trying one more source `x`: selected if it loads. -/
theorem triedInOrder_snoc (env : FontEnv) (order : List FontSource) (x : FontSource)
    (c : FontChain) (hall : ∀ y ∈ order, loads env y = false)
    (hm : c.mainFont = if loads env x then some x else none)
    (ha : c.attempts = order ++ [x]) :
    TriedInOrder env (order ++ [x]) c := by
  have htw : ∀ (o : List FontSource), (∀ y ∈ o, loads env y = false) →
      (o ++ [x]).find? (loads env) = (if loads env x then some x else none)
      ∧ (o ++ [x]).takeWhile (fun y => !loads env y)
          = o ++ (if loads env x then [] else [x]) := by
    intro o
    induction o with
    | nil => intro _; cases hx : loads env x <;> simp [List.find?, List.takeWhile, hx]
    | cons a o ih =>
      intro ho
      have ha : loads env a = false := ho a (List.mem_cons_self _ _)
      have := ih (fun y hy => ho y (List.mem_cons_of_mem _ hy))
      simp [List.find?, List.takeWhile, ha, this.1, this.2]
  have := htw order hall
  refine ⟨by rw [hm, this.1], ?_⟩
  rw [this.2, ha, hm]
  cases hx : loads env x <;> simp

/-- The embedded blob is the first source tried. -/
theorem loadEmbedded_tried (env : FontEnv) :
    TriedInOrder env [FontSource.embedded] (loadEmbedded env) := by
  have h := triedInOrder_snoc env [] FontSource.embedded (loadEmbedded env)
    (by intro y hy; simp at hy)
    (by cases he : env.embeddedLoads <;> simp [loadEmbedded, loads, he])
    (by cases he : env.embeddedLoads <;> simp [loadEmbedded, he])
  simpa using h

/-- The asset loop, entered with nothing loaded, continues the order with the
asset paths. -/
theorem loadAssets_tried (env : FontEnv) (l : List String) :
    ∀ (c : FontChain) (order : List FontSource), TriedInOrder env order c → c.mainFont = none →
      TriedInOrder env (order ++ l.map FontSource.asset) (loadAssets env c l) := by
  induction l with
  | nil => intro c order h _; simpa [loadAssets] using h
  | cons p rest ih =>
    intro c order h hnone
    obtain ⟨hatt, hall⟩ := triedInOrder_none env order c h hnone
    have hassoc : order ++ (p :: rest).map FontSource.asset
        = (order ++ [FontSource.asset p]) ++ rest.map FontSource.asset := by simp
    rw [hassoc]
    cases ho : env.assetOutcome p
    case loaded =>
      simp only [loadAssets, ho]
      apply triedInOrder_append_of_some
      · apply triedInOrder_snoc env order _ _ hall
        · simp [loads, ho]
        · simp [hatt]
      · rfl
    all_goals
      simp only [loadAssets, ho]
      apply ih
      · apply triedInOrder_snoc env order _ _ hall
        · simp [loads, ho, hnone]
        · simp [hatt]
      · exact hnone

/-- The system loop continues the order with the system paths. -/
theorem loadSystem_tried (env : FontEnv) (l : List String) :
    ∀ (c : FontChain) (order : List FontSource), TriedInOrder env order c →
      TriedInOrder env (order ++ l.map FontSource.system) (loadSystem env c l) := by
  induction l with
  | nil => intro c order h; simpa [loadSystem] using h
  | cons p rest ih =>
    intro c order h
    cases hm : c.mainFont with
    | some x =>
      have hs : c.mainFont.isSome = true := by simp [hm]
      simp only [loadSystem, hs, if_true]
      exact triedInOrder_append_of_some env order _ c h hs
    | none =>
      obtain ⟨hatt, hall⟩ := triedInOrder_none env order c h hm
      have hassoc : order ++ (p :: rest).map FontSource.system
          = (order ++ [FontSource.system p]) ++ rest.map FontSource.system := by simp
      rw [hassoc]
      cases hl : env.systemLoads p with
      | true =>
        simp only [loadSystem, hm, hl, Option.isSome_none, Bool.false_eq_true, if_false, if_true]
        apply triedInOrder_append_of_some
        · apply triedInOrder_snoc env order _ _ hall
          · simp [loads, hl]
          · simp [hatt]
        · rfl
      | false =>
        simp only [loadSystem, hm, hl, Option.isSome_none, Bool.false_eq_true, if_false]
        apply ih
        apply triedInOrder_snoc env order _ _ hall
        · simp [loads, hl, hm]
        · simp [hatt]

/-- The default-font block continues the order with the default font. -/
theorem loadDefault_tried (env : FontEnv) (c : FontChain) (order : List FontSource)
    (h : TriedInOrder env order c) :
    TriedInOrder env (order ++ [FontSource.defaultFont]) (loadDefault env c) := by
  cases hm : c.mainFont with
  | some x =>
    have hs : c.mainFont.isSome = true := by simp [hm]
    simp only [loadDefault, hs, if_true]
    exact triedInOrder_append_of_some env order _ c h hs
  | none =>
    obtain ⟨hatt, hall⟩ := triedInOrder_none env order c h hm
    simp only [loadDefault, hm, Option.isSome_none, Bool.false_eq_true, if_false]
    apply triedInOrder_snoc env order _ _ hall
    · simp [loads]
    · simp [hatt]

/-- The whole chain tries the sources of `fontOrder` in order and stops at the
first that loads. -/
theorem resolveFont_tried (env : FontEnv) (assetManager : Bool) :
    TriedInOrder env (fontOrder assetManager) (resolveFont env assetManager) := by
  have h0 := loadEmbedded_tried env
  have h1 : TriedInOrder env
      ([FontSource.embedded]
        ++ (if assetManager then assetCandidates.map FontSource.asset else []))
      (if (!(loadEmbedded env).mainFont.isSome && assetManager) = true
        then loadAssets env (loadEmbedded env) assetCandidates else loadEmbedded env) := by
    cases assetManager with
    | false => simpa using h0
    | true =>
      cases hm : (loadEmbedded env).mainFont with
      | none =>
        simpa [hm] using loadAssets_tried env assetCandidates _ _ h0 hm
      | some x =>
        have hs : (loadEmbedded env).mainFont.isSome = true := by simp [hm]
        simpa [hm] using triedInOrder_append_of_some env _
          (assetCandidates.map FontSource.asset) _ h0 hs
  have h2 := loadSystem_tried env candidates _ _ h1
  exact loadDefault_tried env _ _ h2

/-- The fixed order lists no source twice. -/
theorem fontOrder_nodup (assetManager : Bool) : (fontOrder assetManager).Nodup := by
  cases assetManager <;> simp [fontOrder, assetCandidates, candidates]

/-- C6. For every environment (which load attempts succeed) and with or
without an asset manager, the font chain of `nativeInit` selects the first
source that loads in the fixed order embedded blob, the four asset paths (only
with an asset manager), the three system paths, default font; the sources it
tries are exactly those before the selected one, which all fail, and the
selected one, each once, and none after it; when nothing loads it has tried
them all. When only the third system path loads, that path is selected and the
default font is not tried. `nativeInit`, when it takes effect, stores this
selection as the default font of the UI context. -/
theorem resolveFont_first_success (env : FontEnv) (assetManager : Bool) :
    (resolveFont env assetManager).mainFont = (fontOrder assetManager).find? (loads env)
    ∧ (resolveFont env assetManager).attempts
        = (fontOrder assetManager).takeWhile (fun x => !loads env x)
          ++ (resolveFont env assetManager).mainFont.toList
    ∧ (fontOrder assetManager).Nodup
    ∧ (resolveFont env assetManager).attempts.Nodup
    ∧ (∀ sel : FontSource, (resolveFont env assetManager).mainFont = some sel →
        loads env sel = true
        ∧ ∃ before after : List FontSource,
            fontOrder assetManager = before ++ sel :: after
            ∧ (resolveFont env assetManager).attempts = before ++ [sel]
            ∧ (∀ x ∈ before, loads env x = false)
            ∧ (∀ x ∈ after, x ∉ (resolveFont env assetManager).attempts))
    ∧ ((resolveFont env assetManager).mainFont = none →
        (resolveFont env assetManager).attempts = fontOrder assetManager
        ∧ ∀ x ∈ fontOrder assetManager, loads env x = false)
    ∧ (env.embeddedLoads = false →
        (∀ path ∈ assetCandidates, env.assetOutcome path ≠ AssetOutcome.loaded) →
        env.systemLoads "/system/fonts/DroidSansFallback.ttf" = false →
        env.systemLoads "/system/fonts/NotoSansCJK-Regular.ttc" = false →
        env.systemLoads "/system/fonts/NotoSansCJK.ttc" = true →
        (resolveFont env assetManager).mainFont
            = some (FontSource.system "/system/fonts/NotoSansCJK.ttc")
        ∧ FontSource.defaultFont ∉ (resolveFont env assetManager).attempts)
    ∧ (∀ (s : Bridge) (now width height : Int) (density : F32), s.g_Initialized = false →
        (Java_com_tchat_wanxiaot_junglehelper_ImGuiBridge_nativeInit
            s env now width height density).io.FontDefault
          = (resolveFont env s.g_AssetManager).mainFont
        ∧ (Java_com_tchat_wanxiaot_junglehelper_ImGuiBridge_nativeInit
            s env now width height density).fontAttempts
          = (resolveFont env s.g_AssetManager).attempts) := by
  have ht := resolveFont_tried env assetManager
  have hnd := fontOrder_nodup assetManager
  obtain ⟨h1, h2⟩ := ht
  have hsome : ∀ sel : FontSource, (resolveFont env assetManager).mainFont = some sel →
      loads env sel = true
      ∧ ∃ before after : List FontSource,
          fontOrder assetManager = before ++ sel :: after
          ∧ (resolveFont env assetManager).attempts = before ++ [sel]
          ∧ (∀ x ∈ before, loads env x = false)
          ∧ (∀ x ∈ after, x ∉ (resolveFont env assetManager).attempts) := by
    intro sel hsel
    rw [hsel] at h1
    obtain ⟨hp, before, after, hsplit, hbefore⟩ := List.find?_eq_some.mp h1.symm
    have hb : ∀ x ∈ before, loads env x = false := by
      intro x hx
      simpa using hbefore x hx
    have hatt : (resolveFont env assetManager).attempts = before ++ [sel] := by
      rw [h2, hsel, hsplit,
        List.takeWhile_append_of_pos (fun a ha => by simp [hb a ha])]
      simp [List.takeWhile, hp]
    refine ⟨hp, before, after, hsplit, hatt, hb, ?_⟩
    intro x hx hmem
    rw [hsplit] at hnd
    rw [hatt] at hmem
    have hd := List.nodup_append.mp hnd
    rcases List.mem_append.mp hmem with hin | hin
    · exact hd.2.2 hin (List.mem_cons_of_mem _ hx)
    · simp only [List.mem_singleton] at hin
      subst hin
      exact (List.nodup_cons.mp hd.2.1).1 hx
  have hnone : (resolveFont env assetManager).mainFont = none →
      (resolveFont env assetManager).attempts = fontOrder assetManager
      ∧ ∀ x ∈ fontOrder assetManager, loads env x = false :=
    fun hn => triedInOrder_none env _ _ ⟨h1, h2⟩ hn
  refine ⟨h1, h2, hnd, ?_, hsome, hnone, ?_, ?_⟩
  · cases hm : (resolveFont env assetManager).mainFont with
    | none => rw [(hnone hm).1]; exact hnd
    | some sel =>
      obtain ⟨_, before, after, hsplit, hatt, _, _⟩ := hsome sel hm
      rw [hatt]
      have hnd2 := hnd
      rw [hsplit, show before ++ sel :: after = (before ++ [sel]) ++ after by simp] at hnd2
      exact hnd2.of_append_left
  · intro he ha hs1 hs2 hs3
    have ha1 := ha "fonts/cjk.ttf" (by simp [assetCandidates])
    have ha2 := ha "fonts/chinese.ttf" (by simp [assetCandidates])
    have ha3 := ha "fonts/NotoSansSC-Regular.ttf" (by simp [assetCandidates])
    have ha4 := ha "fonts/NotoSansCJK-Regular.ttc" (by simp [assetCandidates])
    have hm : (resolveFont env assetManager).mainFont
        = some (FontSource.system "/system/fonts/NotoSansCJK.ttc") := by
      rw [h1]
      cases assetManager <;>
        simp [fontOrder, assetCandidates, candidates, List.find?, loads, he, ha1, ha2, ha3, ha4,
          hs1, hs2, hs3]
    refine ⟨hm, ?_⟩
    rw [h2, hm]
    cases assetManager <;>
      simp [fontOrder, assetCandidates, candidates, List.takeWhile, loads, he, ha1, ha2, ha3, ha4,
        hs1, hs2, hs3]
  · intro s now width height density hs
    simp [Java_com_tchat_wanxiaot_junglehelper_ImGuiBridge_nativeInit, hs, freshIo]

/-- C6 where only the third system path loads, with an asset manager set (one
asset opens with no data): the third system path is selected, the default font
is not tried, and the sources tried are the embedded blob, the four assets and
the three system paths, in that order. -/
theorem resolveFont_first_success_witness :
    (resolveFont envOnlyThirdSystem true).mainFont
        = some (FontSource.system "/system/fonts/NotoSansCJK.ttc")
    ∧ FontSource.defaultFont ∉ (resolveFont envOnlyThirdSystem true).attempts
    ∧ (resolveFont envOnlyThirdSystem true).attempts
        = [FontSource.embedded, FontSource.asset "fonts/cjk.ttf",
           FontSource.asset "fonts/chinese.ttf", FontSource.asset "fonts/NotoSansSC-Regular.ttf",
           FontSource.asset "fonts/NotoSansCJK-Regular.ttc",
           FontSource.system "/system/fonts/DroidSansFallback.ttf",
           FontSource.system "/system/fonts/NotoSansCJK-Regular.ttc",
           FontSource.system "/system/fonts/NotoSansCJK.ttc"] := by
  have h := (resolveFont_first_success envOnlyThirdSystem true).2.2.2.2.2.2.1 rfl
    (by intro path _; simp only [envOnlyThirdSystem]; split_ifs <;> simp)
    (by simp [envOnlyThirdSystem]) (by simp [envOnlyThirdSystem]) (by simp [envOnlyThirdSystem])
  refine ⟨h.1, h.2, ?_⟩
  simp [resolveFont, loadEmbedded, loadAssets, loadSystem, loadDefault, assetCandidates,
    candidates, envOnlyThirdSystem]

end TChat
